import Mathlib

/-!
Shallow embedding of the interactive booking conversation engine of the
`chatbot-parking` repository, together with proofs about its claims.

The embedding translates `src/chatbot_parking/booking_utils.py` and
`src/chatbot_parking/interactive_flow.py` into executable Lean definitions.

Modelling conventions:
* Python `str` is Lean `String`.  `str.strip` is `pyStrip`, `str.lower`
  is `pyLower` (ASCII, which covers every input the claims and the
  witnesses use); both are defined over `String.toList` so that every
  definition evaluates inside the kernel.
* The regexes of the source (`NAME_RE`, `CAR_RE`, `PERIOD_RE`, the
  working-hours search, the structured-shorthand patterns and the edit
  command pattern) are deterministic at every choice point except for a
  bounded amount of `\s*` backtracking, which is modelled explicitly.
  `\d` and `\s` are modelled as ASCII digits / whitespace.
* Python `datetime` values are records of year/month/day/hour/minute with
  the calendar range `0001-01-01 00:00 .. 9999-12-31 23:59` enforced
  exactly where CPython enforces it: `datetime.strptime` raises for
  out-of-range components (modelled as `Except.error`), and
  `datetime + timedelta` raises `OverflowError` when the result would
  leave the supported range.
* Functions that can raise a Python exception return `Except Unit` (or
  `Except String` where the exception text is observable).  A raised
  exception propagating out of `run_chat_turn` is `Except.error ()`.
* The engine's external world for one turn is the `Env` record: the
  result of `persistence.get_approval`, the id `persistence.create_approval`
  would allocate, the optional `record_reservation` callback and its
  outcome, `datetime.now()`, the dynamic working hours / free spaces, and
  the `answer_question` outcome.  Writes to the persistence port and
  calls to `record_reservation` are logged in an `Effects` record.
* Python dict state is the `ConversationState` record; the extra
  `"response"` key that the approved transition adds to the state dict is
  modelled by the `response_key : Option String` field (absent = `none`).
-/

set_option maxHeartbeats 1600000
set_option maxRecDepth 4096

namespace ChatbotParking

/-! ## Character classes and low-level string helpers -/

def isWS (c : Char) : Bool := c.isWhitespace

def isSep (c : Char) : Bool := c.isWhitespace || c = ',' || c = ';'

/-- `[A-Za-z' -]`, the tail class of `NAME_RE` and of the structured name value. -/
def nameClass (c : Char) : Bool := c.isAlpha || c = '\'' || c = ' ' || c = '-'

/-- `[A-Z0-9-]`, the class of `CAR_RE`. -/
def carClass (c : Char) : Bool := ('A' ≤ c && c ≤ 'Z') || c.isDigit || c = '-'

/-- `[A-Za-z0-9 -]`, the value class of the structured car-number pattern. -/
def carParseClass (c : Char) : Bool := c.isAlpha || c.isDigit || c = ' ' || c = '-'

/-- `[a-z_ ]`, the group class of the edit-command pattern. -/
def editClass (c : Char) : Bool := ('a' ≤ c && c ≤ 'z') || c = '_' || c = ' '

def startsWithL : List Char → List Char → Bool
  | _, [] => true
  | [], _ :: _ => false
  | a :: as, p :: ps => a = p && startsWithL as ps

/-- Python `needle in hay` on the character lists. -/
def hasSubstring : List Char → List Char → Bool
  | [], n => n.isEmpty
  | hay@(_ :: t), n => startsWithL hay n || hasSubstring t n

/-- Python substring containment `needle in hay`. -/
def strContains (hay needle : String) : Bool := hasSubstring hay.toList needle.toList

/-- Python `str.strip` (ASCII whitespace; kernel-reducible). -/
def pyStrip (s : String) : String :=
  String.mk (((s.toList.dropWhile isWS).reverse.dropWhile isWS).reverse)

/-- Python `str.lower` (ASCII; kernel-reducible). -/
def pyLower (s : String) : String := String.mk (s.toList.map Char.toLower)

/-- Python string falsiness (`not text`). -/
def pyIsEmpty (s : String) : Bool := s.toList.isEmpty

/-- `not str(value).strip()`: blank after stripping. -/
def blankStr (s : String) : Bool := pyIsEmpty (pyStrip s)

/-- `.replace(" ", "_")` on a single-character pattern. -/
def spacesToUnderscores (l : List Char) : List Char :=
  l.map (fun c => if c = ' ' then '_' else c)

/-- Greedy `{0,n}` repetition of a character class. -/
def takeUpTo (p : Char → Bool) : Nat → List Char → List Char
  | 0, _ => []
  | _, [] => []
  | n + 1, c :: cs => if p c then c :: takeUpTo p n cs else []

def digitVal (c : Char) : Nat := c.toNat - '0'.toNat

/-- Exactly `n` ASCII digits, returning their value and the rest. -/
def takeDigits : Nat → List Char → Nat → Option (Nat × List Char)
  | 0, l, acc => some (acc, l)
  | n + 1, c :: l, acc =>
      if c.isDigit then takeDigits n l (acc * 10 + digitVal c) else none
  | _ + 1, [], _ => none

def expectChar (c : Char) : List Char → Option (List Char)
  | d :: l => if d = c then some l else none
  | [] => none

/-- `\s+` followed by a token that cannot start with whitespace. -/
def requireWS1 : List Char → Option (List Char)
  | c :: l => if isWS c then some (l.dropWhile isWS) else none
  | [] => none

/-! ## Calendar arithmetic (CPython `datetime` with minute resolution) -/

structure DateTime where
  year : Nat
  month : Nat
  day : Nat
  hour : Nat
  minute : Nat
deriving DecidableEq, Repr

def isLeap (y : Nat) : Bool := (y % 4 = 0 && y % 100 ≠ 0) || y % 400 = 0

def daysInMonth (y m : Nat) : Nat :=
  if m = 2 then (if isLeap y then 29 else 28)
  else if m = 4 ∨ m = 6 ∨ m = 9 ∨ m = 11 then 30
  else 31

/-- Days from 0001-01-01 to the start of year `y` (proleptic Gregorian). -/
def daysBeforeYear (y : Nat) : Nat :=
  365 * (y - 1) + (y - 1) / 4 + (y - 1) / 400 - (y - 1) / 100

def daysBeforeMonth (y : Nat) : Nat → Nat
  | 0 => 0
  | 1 => 0
  | m + 1 => daysBeforeMonth y m + daysInMonth y m

def DateTime.toDays (dt : DateTime) : Nat :=
  daysBeforeYear dt.year + daysBeforeMonth dt.year dt.month + (dt.day - 1)

/-- Minutes since 0001-01-01 00:00. -/
def DateTime.toMin (dt : DateTime) : Nat :=
  dt.toDays * 1440 + dt.hour * 60 + dt.minute

def yearFromDays (n : Nat) : Nat :=
  let y0 := n * 400 / 146097 + 1
  if daysBeforeYear (y0 + 1) ≤ n then y0 + 1 else y0

def monthFrom (y : Nat) : Nat → Nat → Nat → Nat × Nat
  | m, doy, 0 => (m, doy)
  | m, doy, fuel + 1 =>
      if doy < daysInMonth y m then (m, doy)
      else monthFrom y (m + 1) (doy - daysInMonth y m) fuel

def ofDays (n : Nat) : Nat × Nat × Nat :=
  let y := yearFromDays n
  let (m, d0) := monthFrom y 1 (n - daysBeforeYear y) 12
  (y, m, d0 + 1)

def ofMin (t : Nat) : DateTime :=
  let (y, md) := ofDays (t / 1440)
  { year := y, month := md.1, day := md.2, hour := t % 1440 / 60, minute := t % 60 }

/-- `datetime.max` at minute resolution: 9999-12-31 23:59. -/
def maxMin : Nat := DateTime.toMin ⟨9999, 12, 31, 23, 59⟩

/-- `dt + timedelta(minutes=k)`; `OverflowError` past `datetime.max`. -/
def addMinE (dt : DateTime) (k : Nat) : Except Unit DateTime :=
  let t := dt.toMin + k
  if t > maxMin then Except.error () else Except.ok (ofMin t)

/-- Python datetime comparison (lexicographic on the fields). -/
def dtLt (a b : DateTime) : Bool :=
  if a.year ≠ b.year then a.year < b.year
  else if a.month ≠ b.month then a.month < b.month
  else if a.day ≠ b.day then a.day < b.day
  else if a.hour ≠ b.hour then a.hour < b.hour
  else a.minute < b.minute

def dtLe (a b : DateTime) : Bool := dtLt a b || a = b

/-- `datetime.replace(hour=h, minute=m, second=0, microsecond=0)`. -/
def DateTime.withTime (dt : DateTime) (h m : Nat) : DateTime :=
  { dt with hour := h, minute := m }

def pad2 (n : Nat) : String := if n < 10 then "0" ++ toString n else toString n

def pad4 (n : Nat) : String :=
  if n < 10 then "000" ++ toString n
  else if n < 100 then "00" ++ toString n
  else if n < 1000 then "0" ++ toString n
  else toString n

/-- `strftime('%Y-%m-%d %H:%M')`. -/
def renderDT (dt : DateTime) : String :=
  pad4 dt.year ++ "-" ++ pad2 dt.month ++ "-" ++ pad2 dt.day ++ " " ++
    pad2 dt.hour ++ ":" ++ pad2 dt.minute

def renderPeriod (s e : DateTime) : String := renderDT s ++ " to " ++ renderDT e

/-- `datetime.strptime` component validation for `%Y-%m-%d %H:%M`:
the regex has already fixed the digit counts, so the parse succeeds exactly
when every component is in calendar range; otherwise CPython raises. -/
def mkDT (y mo d h mi : Nat) : Option DateTime :=
  if 1 ≤ y ∧ y ≤ 9999 ∧ 1 ≤ mo ∧ mo ≤ 12 ∧ 1 ≤ d ∧ d ≤ daysInMonth y mo ∧
      h ≤ 23 ∧ mi ≤ 59 then
    some ⟨y, mo, d, h, mi⟩
  else none

/-! ## `PERIOD_RE` and `_parse_period_or_none` -/

/-- One `\d{4}-\d{2}-\d{2}\s+\d{2}:\d{2}` datetime group of `PERIOD_RE`,
returning the raw digit components. -/
def matchDTRaw (l : List Char) : Option ((Nat × Nat × Nat × Nat × Nat) × List Char) := do
  let (y, l) ← takeDigits 4 l 0
  let l ← expectChar '-' l
  let (mo, l) ← takeDigits 2 l 0
  let l ← expectChar '-' l
  let (d, l) ← takeDigits 2 l 0
  let l ← requireWS1 l
  let (h, l) ← takeDigits 2 l 0
  let l ← expectChar ':' l
  let (mi, l) ← takeDigits 2 l 0
  pure ((y, mo, d, h, mi), l)

/-- `to` with `re.IGNORECASE`. -/
def matchTo : List Char → Option (List Char)
  | a :: b :: l => if (a = 't' ∨ a = 'T') ∧ (b = 'o' ∨ b = 'O') then some l else none
  | _ => none

/-- Full match of `PERIOD_RE` (anchored both ends; every choice point of
the regex is deterministic because adjacent tokens have disjoint first
characters). -/
def matchPeriodRaw (l : List Char) :
    Option ((Nat × Nat × Nat × Nat × Nat) × (Nat × Nat × Nat × Nat × Nat)) := do
  let l := l.dropWhile isWS
  let (r1, l) ← matchDTRaw l
  let l ← requireWS1 l
  let l ← matchTo l
  let l ← requireWS1 l
  let (r2, l) ← matchDTRaw l
  let l := l.dropWhile isWS
  if l.isEmpty then pure (r1, r2) else none

/-- `_parse_period_or_none`: `None` when the regex does not match;
raises (`Except.error`) when the regex matches but `strptime` rejects a
component (e.g. month 13 or Feb 30). -/
def parsePeriodOrNone (value : String) : Except Unit (Option (DateTime × DateTime)) :=
  match matchPeriodRaw value.toList with
  | none => Except.ok none
  | some (r1, r2) =>
      match mkDT r1.1 r1.2.1 r1.2.2.1 r1.2.2.2.1 r1.2.2.2.2,
            mkDT r2.1 r2.2.1 r2.2.2.1 r2.2.2.2.1 r2.2.2.2.2 with
      | some a, some b => Except.ok (some (a, b))
      | _, _ => Except.error ()

/-- `parse_reservation_period` is an alias of `_parse_period_or_none`. -/
def parseReservationPeriod (value : String) : Except Unit (Option (DateTime × DateTime)) :=
  parsePeriodOrNone value

/-! ## `parse_working_hours_window` -/

/-- Attempt `(\d{2}:\d{2})\s*-\s*(\d{2}:\d{2})` at the current position. -/
def matchHWAt (l : List Char) : Option (Nat × Nat × Nat × Nat) := do
  let (h1, l) ← takeDigits 2 l 0
  let l ← expectChar ':' l
  let (m1, l) ← takeDigits 2 l 0
  let l := l.dropWhile isWS
  let l ← expectChar '-' l
  let l := l.dropWhile isWS
  let (h2, l) ← takeDigits 2 l 0
  let l ← expectChar ':' l
  let (m2, _) ← takeDigits 2 l 0
  pure (h1, m1, h2, m2)

/-- `re.search`: scan start positions left to right. -/
def searchHW : List Char → Option (Nat × Nat × Nat × Nat)
  | [] => none
  | l@(_ :: t) =>
      match matchHWAt l with
      | some r => some r
      | none => searchHW t

/-- `parse_working_hours_window`: first syntactic match, then `strptime`
validation of both `%H:%M` groups (raising on out-of-range values). -/
def parseWorkingHoursWindow (working_hours : String) :
    Except Unit (Option (Nat × Nat × Nat × Nat)) :=
  match searchHW working_hours.toList with
  | none => Except.ok none
  | some (h1, m1, h2, m2) =>
      if h1 ≤ 23 ∧ m1 ≤ 59 ∧ h2 ≤ 23 ∧ m2 ≤ 59 then
        Except.ok (some (h1, m1, h2, m2))
      else Except.error ()

/-! ## Booking fields and the collected-details dict -/

inductive Field where
  | name
  | surname
  | car_number
  | reservation_period
deriving DecidableEq, Repr

def BOOKING_FIELDS : List Field :=
  [Field.name, Field.surname, Field.car_number, Field.reservation_period]

def fieldName : Field → String
  | .name => "name"
  | .surname => "surname"
  | .car_number => "car_number"
  | .reservation_period => "reservation_period"

def fieldLabel : Field → String
  | .name => "Name"
  | .surname => "Surname"
  | .car_number => "Car number"
  | .reservation_period => "Reservation period"

def fieldPrompt : Field → String
  | .name => "Please provide your name."
  | .surname => "Please provide your surname."
  | .car_number => "What is your car number?"
  | .reservation_period =>
      "What reservation period would you like (e.g., 2026-02-20 09:00 to 2026-02-20 18:00)?"

/-- `_next_field`: successor in the canonical `BOOKING_FIELDS` order. -/
def nextField : Field → Option Field
  | .name => some .surname
  | .surname => some .car_number
  | .car_number => some .reservation_period
  | .reservation_period => none

/-- The `collected` dict: at most the four booking fields, `none` = key
absent.  Python reads use `collected.get(field, "")`. -/
structure Collected where
  name : Option String
  surname : Option String
  car_number : Option String
  reservation_period : Option String
deriving DecidableEq, Repr

def Collected.empty : Collected := ⟨none, none, none, none⟩

def Collected.raw (c : Collected) : Field → Option String
  | .name => c.name
  | .surname => c.surname
  | .car_number => c.car_number
  | .reservation_period => c.reservation_period

/-- `collected.get(field, "")`. -/
def Collected.get (c : Collected) (f : Field) : String := (c.raw f).getD ""

def Collected.set (c : Collected) (f : Field) (v : String) : Collected :=
  match f with
  | .name => { c with name := some v }
  | .surname => { c with surname := some v }
  | .car_number => { c with car_number := some v }
  | .reservation_period => { c with reservation_period := some v }

/-- Truthiness of the parsed-details dict (`if parsed:`): any key present. -/
def parsedNonempty (p : Collected) : Bool :=
  p.name.isSome || p.surname.isSome || p.car_number.isSome || p.reservation_period.isSome

/-! ## Keyword intent, command predicates -/

def BOOKING_KEYWORDS : List String :=
  ["book", "booking", "reserve", "reservation", "parking spot", "parking place",
   "бронь", "броню", "заброню", "забронювати"]

def is_booking_keyword_intent (message : String) : Bool :=
  BOOKING_KEYWORDS.any (fun w => strContains (pyLower message) w)

def CONFIRM_COMMANDS : List String := ["confirm", "submit", "yes", "approve", "ok"]

def CANCEL_COMMANDS : List String := ["cancel", "stop", "abort", "quit"]

def isConfirmCommand (text : String) : Bool :=
  let lowered := pyLower (pyStrip text)
  CONFIRM_COMMANDS.contains lowered || startsWithL lowered.toList "confirm ".toList

def isCancelCommand (text : String) : Bool :=
  let lowered := pyLower (pyStrip text)
  if strContains lowered "cancel booking" then true
  else CANCEL_COMMANDS.contains lowered

/-! ## Validation and normalization -/

/-- `NAME_RE.fullmatch`: `^[A-Za-z][A-Za-z' -]{1,49}$`. -/
def nameMatches (value : String) : Bool :=
  match value.toList with
  | c :: rest => c.isAlpha && rest.all nameClass && 1 ≤ rest.length && rest.length ≤ 49
  | [] => false

/-- `CAR_RE.fullmatch`: `^[A-Z0-9-]{4,12}$`. -/
def carMatches (value : String) : Bool :=
  let l := value.toList
  l.all carClass && 4 ≤ l.length && l.length ≤ 12

/-- `normalize_car_number`: `value.upper().replace(" ", "")`. -/
def normalize_car_number (value : String) : String :=
  String.mk ((value.toList.map Char.toUpper).filter (fun c => c ≠ ' '))

/-- `normalize_reservation_period` (propagates a `strptime` exception). -/
def normalize_reservation_period (value : String) : Except Unit String :=
  match parsePeriodOrNone value with
  | Except.error e => Except.error e
  | Except.ok none => Except.ok (pyStrip value)
  | Except.ok (some (s, e)) => Except.ok (renderPeriod s e)

/-- `validate_field` (can raise via `strptime` on a regex-matching but
calendar-invalid period). -/
def validate_field (f : Field) (value : String) : Except Unit (Option String) :=
  match f with
  | .name | .surname =>
      Except.ok (if nameMatches value then none
        else some "Use only letters, spaces, apostrophe, or hyphen (2-50 chars).")
  | .car_number =>
      Except.ok (if carMatches (normalize_car_number value) then none
        else some "Car number must be 4-12 chars: letters, digits, or '-' only.")
  | .reservation_period =>
      match parsePeriodOrNone value with
      | Except.error e => Except.error e
      | Except.ok none =>
          Except.ok (some "Use format: YYYY-MM-DD HH:MM to YYYY-MM-DD HH:MM.")
      | Except.ok (some (s, e)) =>
          Except.ok (if dtLe e s then some "Reservation end time must be after start time."
            else none)

/-- `next_missing_field`: first field whose collected value is blank. -/
def next_missing_field (c : Collected) : Option Field :=
  if blankStr (c.get .name) then some .name
  else if blankStr (c.get .surname) then some .surname
  else if blankStr (c.get .car_number) then some .car_number
  else if blankStr (c.get .reservation_period) then some .reservation_period
  else none

/-! ## `is_period_within_working_hours` and `suggest_alternative_periods` -/

def timeLe (a b : Nat × Nat) : Bool := a.1 < b.1 || (a.1 = b.1 && a.2 ≤ b.2)

def is_period_within_working_hours (period working_hours : String) :
    Except Unit (Option Bool) :=
  match parseReservationPeriod period with
  | Except.error e => Except.error e
  | Except.ok pp =>
      match parseWorkingHoursWindow working_hours with
      | Except.error e => Except.error e
      | Except.ok hw =>
          match pp, hw with
          | some (s, e), some (oh, om, ch, cm) =>
              Except.ok (some (timeLe (oh, om) (s.hour, s.minute) &&
                timeLe (e.hour, e.minute) (ch, cm)))
          | _, _ => Except.ok none

/-- The Python `if normalized not in rendered: rendered.append(normalized)`
dedup loop. -/
def dedupAppend (rendered : List String) (x : String) : List String :=
  if x ∈ rendered then rendered else rendered ++ [x]

def pyDedup (l : List String) : List String := l.foldl dedupAppend []

/-- The candidate pairs computed by `suggest_alternative_periods` for a
parsed period and opening window, in source order; `Except.error` is a
CPython `OverflowError` from `datetime + timedelta` past year 9999. -/
def altCandidatePairs (s e : DateTime) (oh om ch cm : Nat) :
    Except Unit (List (DateTime × DateTime)) :=
  let durRaw : Int := (e.toMin : Int) - (s.toMin : Int)
  let duration : Nat := if durRaw ≤ 0 then 60 else durRaw.toNat
  let same_day_open := s.withTime oh om
  let same_day_close := s.withTime ch cm
  let proposed_start := if dtLt s same_day_open then same_day_open else s
  match addMinE proposed_start duration with
  | Except.error err => Except.error err
  | Except.ok proposed_end =>
      let sugg1 := if dtLe proposed_end same_day_close then [(proposed_start, proposed_end)] else []
      match addMinE s 1440 with
      | Except.error err => Except.error err
      | Except.ok next_day =>
          let next_day_start := next_day.withTime oh om
          match addMinE next_day_start duration with
          | Except.error err => Except.error err
          | Except.ok next_day_end_raw =>
              let next_day_close := next_day_start.withTime ch cm
              let next_day_end :=
                if dtLt next_day_close next_day_end_raw then next_day_close else next_day_end_raw
              let sugg2 := if dtLt next_day_start next_day_end then [(next_day_start, next_day_end)] else []
              Except.ok (sugg1 ++ sugg2)

def suggest_alternative_periods (period working_hours : String) :
    Except Unit (List String) :=
  match parseReservationPeriod period with
  | Except.error err => Except.error err
  | Except.ok pp =>
      match parseWorkingHoursWindow working_hours with
      | Except.error err => Except.error err
      | Except.ok hw =>
          match pp, hw with
          | some (s, e), some (oh, om, ch, cm) =>
              match altCandidatePairs s e oh om ch cm with
              | Except.error err => Except.error err
              | Except.ok pairs =>
                  Except.ok ((pyDedup (pairs.map (fun p => renderPeriod p.1 p.2))).take 2)
          | _, _ => Except.ok []

/-! ## `parse_structured_details` -/

def afterColonEq : List Char → Option (List Char)
  | c :: t => if c = ':' ∨ c = '=' then some t else none
  | [] => none

/-- Case-insensitive literal key match (keys are lower case). -/
def matchKeyCI : List Char → List Char → Option (List Char)
  | [], l => some l
  | _ :: _, [] => none
  | k :: ks, c :: cs => if c.toLower = k then matchKeyCI ks cs else none

/-- `\s*([A-Za-z][A-Za-z' -]{1,49})` then `.strip()`; the group must start
with a letter, so the `\s*` is committed to its maximal extent. -/
def nameValueAfter (l : List Char) : Option String :=
  match l.dropWhile isWS with
  | c :: rest =>
      if c.isAlpha then
        let taken := takeUpTo nameClass 49 rest
        if taken.length = 0 then none else some (pyStrip (String.mk (c :: taken)))
      else none
  | [] => none

/-- `\s*([A-Za-z0-9 -]{4,20})` then `.strip()`: the value class contains
the space, so the regex backtracks the `\s*` from its maximal extent down
until the group can reach length 4. -/
def carTry (l : List Char) : Nat → Option String
  | 0 =>
      let cand := takeUpTo carParseClass 20 l
      if 4 ≤ cand.length then some (pyStrip (String.mk cand)) else none
  | d + 1 =>
      let cand := takeUpTo carParseClass 20 (l.drop (d + 1))
      if 4 ≤ cand.length then some (pyStrip (String.mk cand)) else carTry l d

def carValueAfter (l : List Char) : Option String :=
  carTry l (l.takeWhile isWS).length

/-- `\s*([^;]+)$` then `.strip()`: matches iff the remainder is non-empty
and semicolon-free; the captured group is the remainder after the maximal
whitespace prefix (or a single whitespace character when the remainder is
all whitespace — stripped to `""` either way). -/
def periodValueAfter (l : List Char) : Option String :=
  if l.isEmpty then none
  else if l.contains ';' then none
  else some (pyStrip (String.mk (l.dropWhile isWS)))

/-- Regex alternation of several keys followed by `[:=]` and a value group,
attempted at one position. -/
def tryKV (alts : List (List Char)) (valueFn : List Char → Option String)
    (l : List Char) : Option String :=
  alts.findSome? fun k =>
    match matchKeyCI k l with
    | none => none
    | some rest =>
        match afterColonEq rest with
        | none => none
        | some rest2 => valueFn rest2

/-- `re.search` for `(?:^|[\s,;])` + key pattern: at position 0 the `^`
alternative applies, at every position a separator character may be
consumed first; positions are scanned left to right. -/
def scanFor (tryHere : List Char → Option String) : Bool → List Char → Option String
  | atStart, l =>
      match (if atStart then tryHere l else none) with
      | some v => some v
      | none =>
          match l with
          | [] => none
          | c :: t =>
              match (if isSep c then tryHere t else none) with
              | some v => some v
              | none => scanFor tryHere false t

def parse_structured_details (text : String) : Collected :=
  let value := (pyStrip text).toList
  { name := scanFor (tryKV ["name".toList] nameValueAfter) true value,
    surname := scanFor (tryKV ["surname".toList] nameValueAfter) true value,
    car_number :=
      scanFor (tryKV ["car".toList, "plate".toList, "car_number".toList] carValueAfter) true value,
    reservation_period :=
      scanFor (tryKV ["period".toList, "reservation_period".toList] periodValueAfter) true value }

/-! ## `apply_valid_parsed_details` -/

def applyField (merged parsed : Collected) (f : Field) : Except Unit Collected :=
  match parsed.raw f with
  | none => Except.ok merged
  | some raw =>
      if pyIsEmpty raw then Except.ok merged
      else
        match validate_field f raw with
        | Except.error e => Except.error e
        | Except.ok (some _) => Except.ok merged
        | Except.ok none =>
            match f with
            | .car_number => Except.ok (merged.set f (normalize_car_number raw))
            | .reservation_period =>
                match normalize_reservation_period raw with
                | Except.error e => Except.error e
                | Except.ok v => Except.ok (merged.set f v)
            | _ => Except.ok (merged.set f raw)

def apply_valid_parsed_details (collected parsed : Collected) : Except Unit Collected :=
  match applyField collected parsed .name with
  | Except.error e => Except.error e
  | Except.ok c1 =>
      match applyField c1 parsed .surname with
      | Except.error e => Except.error e
      | Except.ok c2 =>
          match applyField c2 parsed .car_number with
          | Except.error e => Except.error e
          | Except.ok c3 => applyField c3 parsed .reservation_period

/-! ## `_extract_edit_field` -/

def editAliases (raw : String) : Option Field :=
  if raw = "name" then some .name
  else if raw = "surname" then some .surname
  else if raw = "car" then some .car_number
  else if raw = "plate" then some .car_number
  else if raw = "car_number" then some .car_number
  else if raw = "period" then some .reservation_period
  else if raw = "reservation_period" then some .reservation_period
  else none

/-- `^(?:edit|change|update|correct)\s+([a-z_ ]+)$` on the stripped
lower-cased text, then alias lookup. -/
def extractEditField (text : String) : Option Field :=
  let lowered := (pyLower (pyStrip text)).toList
  ["edit", "change", "update", "correct"].findSome? fun k =>
    if startsWithL lowered k.toList then
      let rest := lowered.drop k.toList.length
      match rest with
      | c :: _ =>
          if isWS c then
            let g := rest.dropWhile isWS
            if g ≠ [] ∧ g.all editClass then
              editAliases (String.mk (spacesToUnderscores (pyStrip (String.mk g)).toList))
            else none
          else none
      | [] => none
    else none

/-! ## Conversation state, environment, effects, response payload -/

/-- The per-thread state dict.  `response_key` models the extra
`"response"` key that the approved transition adds to the state dict
(absent = `none`); `_state_with` preserves it in every other branch. -/
structure ConversationState where
  mode : String
  booking_active : Bool
  pending_field : Option Field
  collected : Collected
  request_id : Option String
  status : String
  recorded : Bool
  mcp_recorded : Bool
  decided_at : Option String
  response_key : Option String
deriving DecidableEq, Repr

/-- `default_state()` (with no extra keys). -/
def defaultState : ConversationState :=
  { mode := "info", booking_active := false, pending_field := none,
    collected := Collected.empty, request_id := none, status := "collecting",
    recorded := false, mcp_recorded := false, decided_at := none,
    response_key := none }

/-- The `decision` dict of an approval: `approved` is `none` when the key
is absent or not a bool literal (`decision.get("approved") is True/False`). -/
structure Decision where
  approved : Option Bool
  decided_at : Option String
deriving DecidableEq, Repr

structure Approval where
  decision : Option Decision
deriving DecidableEq, Repr

/-- The external world of one turn: everything `run_chat_turn` reads from
its collaborators, fixed for the duration of the turn. -/
structure Env where
  /-- Result of `persistence.get_approval(request_id)`. -/
  approval : Option Approval
  /-- The id `persistence.create_approval` returns if called this turn. -/
  new_request_id : String
  /-- `record_reservation` callback: `none` = not supplied; `some (ok ())`
  = supplied and succeeds; `some (error msg)` = supplied and raises with
  `str(exc) = msg`. -/
  recorder : Option (Except String Unit)
  /-- `datetime.now(timezone.utc).isoformat()`. -/
  now : String
  /-- `get_dynamic_info().working_hours`. -/
  working_hours : String
  /-- `get_dynamic_info().available_spaces`. -/
  available_spaces : Int
  /-- `answer_question(text)`: `error` = raises. -/
  answer : Except Unit String

structure LedgerRecord where
  name : String
  car_number : String
  reservation_period : String
  approval_time : String
  request_id : Option String
deriving DecidableEq, Repr

structure RecorderCall where
  name : String
  car_number : String
  reservation_period : String
  approval_time : String
deriving DecidableEq, Repr

structure ApprovalPayload where
  name : String
  surname : String
  car_number : String
  reservation_period : String
deriving DecidableEq, Repr

/-- Writes performed against the persistence port / record callback during
one turn, in call order per channel. -/
structure Effects where
  appends : List LedgerRecord
  created : List ApprovalPayload
  recorder_calls : List RecorderCall
deriving DecidableEq, Repr

def Effects.empty : Effects := ⟨[], [], []⟩

/-- The `progress` sub-dict of `_booking_progress`. -/
structure Progress where
  current_step : Nat
  total_steps : Nat
  percent : Nat
  pending_field : Option Field
  completed_fields : List Field
  status_label : String
deriving DecidableEq, Repr

/-- The response payload dict; `none`-valued optional fields model absent
keys.  `status` is absent only in the empty-message response. -/
structure Payload where
  response : String
  mode : String
  status : Option String
  pending_field : Option Field
  collected : Option Collected
  progress : Option Progress
  status_detail : Option String
  request_id : Option String
  action_required : Option String
  review_summary : Option String
  alternatives : Option (List String)
  decided_at : Option String
  recorded : Option Bool
  mcp_recorded : Option Bool
deriving DecidableEq, Repr

structure TurnResult where
  payload : Payload
  state : ConversationState
  effects : Effects
deriving DecidableEq, Repr

/-! ## Response construction helpers -/

def STATUS_LABELS (status : String) : String :=
  if status = "collecting" then "Collecting booking details"
  else if status = "review" then "Waiting for your confirmation"
  else if status = "pending" then "Pending administrator review"
  else if status = "approved" then "Approved"
  else if status = "declined" then "Declined"
  else if status = "cancelled" then "Cancelled"
  else status

def completedFields (collected : Collected) : List Field :=
  BOOKING_FIELDS.filter (fun f => !(blankStr (collected.get f)))

/-- `_status_detail`. -/
def statusDetail (status : String) (collected : Collected) : String :=
  if status = "collecting" then
    "Collecting details (" ++ toString (completedFields collected).length ++ "/" ++
      toString BOOKING_FIELDS.length ++ " complete)."
  else if status = "review" then
    "Review details, then send 'confirm' to submit, or 'edit <field>'."
  else if status = "pending" then "Request submitted. Waiting for administrator decision."
  else if status = "approved" then "Reservation is approved and recorded."
  else if status = "declined" then "Reservation was declined by administrator."
  else if status = "cancelled" then "Booking flow was cancelled."
  else ""

/-- `_booking_progress`.  `total_steps` is the constant 5, for which
`int((done/total)*100)` equals `done * 100 / 5` exactly (checked for all
six float values `done = 0..5`). -/
def bookingProgress (status : String) (pending_field : Option Field)
    (collected : Collected) : Progress :=
  let total_steps := BOOKING_FIELDS.length + 1
  let completed := completedFields collected
  let completed_count := completed.length
  let ds_cs : Nat × Nat :=
    if status = "pending" ∨ status = "approved" ∨ status = "declined" then
      (total_steps, total_steps)
    else if status = "review" then (BOOKING_FIELDS.length, total_steps)
    else if status = "cancelled" then (0, 0)
    else (completed_count, min (completed_count + 1) total_steps)
  { current_step := ds_cs.2, total_steps := total_steps,
    percent := if total_steps = 0 then 0 else ds_cs.1 * 100 / total_steps,
    pending_field := pending_field, completed_fields := completed,
    status_label := STATUS_LABELS status }

/-- `_render_review_summary`. -/
def renderReviewSummary (collected : Collected) : String :=
  String.intercalate "\n"
    (["Please review your booking details:"] ++
      BOOKING_FIELDS.map (fun f =>
        let v := pyStrip (collected.get f)
        "- " ++ fieldLabel f ++ ": " ++ (if pyIsEmpty v then "(missing)" else v)) ++
      ["Send 'confirm' to submit, 'edit <field>' to change, or 'cancel booking'."])

/-- Truthiness of an optional string value (`if request_id:` etc.). -/
def optTruthy : Option String → Option String
  | some s => if pyIsEmpty s then none else some s
  | none => none

/-- Truthiness of an optional string for a bool test. -/
def truthyOpt : Option String → Bool
  | some s => !pyIsEmpty s
  | none => false

def optListTruthy : Option (List String) → Option (List String)
  | some [] => none
  | some l => some l
  | none => none

/-- `_booking_response` (arguments in source order). -/
def mkBookingResponse (response status : String) (pending_field : Option Field)
    (collected : Collected) (request_id : Option String)
    (action_required : Option String) (review_summary : Option String)
    (alternatives : Option (List String)) (decided_at : Option String)
    (recorded : Option Bool) (mcp_recorded : Option Bool) : Payload :=
  { response := response, mode := "booking", status := some status,
    pending_field := pending_field, collected := some collected,
    progress := some (bookingProgress status pending_field collected),
    status_detail := some (statusDetail status collected),
    request_id := optTruthy request_id,
    action_required := optTruthy action_required,
    review_summary := optTruthy review_summary,
    alternatives := optListTruthy alternatives,
    decided_at := optTruthy decided_at,
    recorded := recorded, mcp_recorded := mcp_recorded }

/-- A plain (non-booking) response dict with only `response`, `mode` and
optionally `status` keys. -/
def mkPlainPayload (response mode : String) (status : Option String) : Payload :=
  { response := response, mode := mode, status := status,
    pending_field := none, collected := none, progress := none,
    status_detail := none, request_id := none, action_required := none,
    review_summary := none, alternatives := none, decided_at := none,
    recorded := none, mcp_recorded := none }

/-- `decision.get("decided_at") or <now>`. -/
def orElseStr (v : Option String) (dflt : String) : String :=
  match v with
  | some s => if pyIsEmpty s then dflt else s
  | none => dflt

/-- `f"{collected.get('name','').strip()} {collected.get('surname','').strip()}".strip()`. -/
def joinName (c : Collected) : String :=
  pyStrip (pyStrip (c.get .name) ++ " " ++ pyStrip (c.get .surname))

/-! ## The per-turn branches of `run_chat_turn` -/

/-- The empty-message no-op (`"Message cannot be empty."`). -/
def emptyMsgResult (current : ConversationState) : TurnResult :=
  ⟨mkPlainPayload "Message cannot be empty." current.mode none, current, Effects.empty⟩

/-- The cancel branch (lines 229-249). -/
def cancelTurn (current : ConversationState) : TurnResult :=
  ⟨mkPlainPayload "Booking cancelled. You can start a new reservation anytime." "info"
      (some "cancelled"),
    { current with
      mode := "info", booking_active := false, pending_field := none,
      collected := Collected.empty, request_id := none, status := "cancelled",
      recorded := false, mcp_recorded := false, decided_at := none },
    Effects.empty⟩

/-- The booking-intent restart branch (lines 251-275). -/
def restartTurn (current : ConversationState) : TurnResult :=
  ⟨mkBookingResponse (fieldPrompt .name) "collecting" (some .name) Collected.empty
      none (some "input") none none none (some false) (some false),
    { current with
      mode := "booking", booking_active := true, pending_field := some .name,
      collected := Collected.empty, status := "collecting", request_id := none,
      recorded := false, mcp_recorded := false, decided_at := none },
    Effects.empty⟩

/-- The approved sub-branch of the pending branch (lines 281-330). -/
def approvedResult (current : ConversationState) (env : Env) (rid : String)
    (d : Decision) : TurnResult :=
  let collected := current.collected
  let approval_time := orElseStr d.decided_at env.now
  let appends : List LedgerRecord :=
    if current.recorded then []
    else [⟨joinName collected, collected.get .car_number,
      collected.get .reservation_period, approval_time, some rid⟩]
  let rcall : RecorderCall :=
    ⟨joinName collected, collected.get .car_number,
      collected.get .reservation_period, approval_time⟩
  let step : List RecorderCall × Bool × Option String :=
    match env.recorder with
    | none => ([], current.mcp_recorded, none)
    | some res =>
        if current.mcp_recorded then ([], current.mcp_recorded, none)
        else
          match res with
          | Except.ok _ => ([rcall], true, none)
          | Except.error msg => ([rcall], current.mcp_recorded, some msg)
  let mcp2 := step.2.1
  let recorder_error := step.2.2
  let basePayload :=
    mkBookingResponse "Confirmed and recorded." "approved" none collected (some rid)
      (some "none") none none (some approval_time) (some true) (some mcp2)
  let payload :=
    match recorder_error with
    | some msg =>
        if pyIsEmpty msg then basePayload
        else
          { basePayload with
            status_detail := some (pyStrip (pyStrip (statusDetail "approved" collected) ++
              " (MCP file record failed: " ++ msg ++ ")")) }
    | none => basePayload
  ⟨payload,
    { current with
      response_key := some "Confirmed and recorded.", mode := "booking",
      booking_active := false, pending_field := none, status := "approved",
      recorded := true, mcp_recorded := mcp2, decided_at := some approval_time },
    ⟨appends, [], step.1⟩⟩

/-- The declined sub-branch (lines 332-357). -/
def declinedResult (current : ConversationState) (rid : String) (d : Decision) : TurnResult :=
  ⟨mkBookingResponse "Declined by administrator." "declined" none current.collected
      (some rid) (some "none") none none d.decided_at (some false)
      (some current.mcp_recorded),
    { current with
      mode := "booking", booking_active := false, pending_field := none,
      status := "declined", recorded := false, mcp_recorded := current.mcp_recorded,
      decided_at := d.decided_at },
    Effects.empty⟩

/-- The still-pending sub-branch (lines 359-380). -/
def stillPendingResult (current : ConversationState) (rid : String) : TurnResult :=
  ⟨mkBookingResponse ("Still pending administrator decision. Request id: " ++ rid)
      "pending" none current.collected (some rid) (some "await_admin_decision")
      none none none (some current.recorded) (some current.mcp_recorded),
    { current with
      mode := "booking", booking_active := true, pending_field := none,
      status := "pending", mcp_recorded := current.mcp_recorded, decided_at := none },
    Effects.empty⟩

/-- The pending branch (lines 277-380); it performs no parsing and never
raises. -/
def pendingTurn (current : ConversationState) (env : Env) (rid : String) : TurnResult :=
  match Option.bind env.approval Approval.decision with
  | some d =>
      if d.approved = some true then approvedResult current env rid d
      else if d.approved = some false then declinedResult current rid d
      else stillPendingResult current rid
  | none => stillPendingResult current rid

/-- The confirm sub-branch of the review branch (lines 383-416). -/
def confirmResult (current : ConversationState) (env : Env) : TurnResult :=
  let new_request_id := env.new_request_id
  ⟨mkBookingResponse ("Submitted for approval. Request id: " ++ new_request_id)
      "pending" none current.collected (some new_request_id)
      (some "await_admin_decision") none none none (some false) (some false),
    { current with
      mode := "booking", booking_active := true, pending_field := none,
      collected := current.collected, request_id := some new_request_id,
      status := "pending", recorded := false, mcp_recorded := false, decided_at := none },
    ⟨[], [⟨current.collected.get .name, current.collected.get .surname,
      current.collected.get .car_number, current.collected.get .reservation_period⟩], []⟩⟩

/-- A drop-to-collecting prompt (used by the review and collection
branches; the `recorded`/`mcp_recorded` values passed differ by call
site, matching the source). -/
def promptResult (current : ConversationState) (f : Field) (collected : Collected)
    (recorded mcp_recorded : Bool) : TurnResult :=
  ⟨mkBookingResponse (fieldPrompt f) "collecting" (some f) collected none
      (some "input") none none none (some recorded) (some mcp_recorded),
    { current with
      mode := "booking", booking_active := true, pending_field := some f,
      collected := collected, status := "collecting", recorded := recorded,
      mcp_recorded := mcp_recorded },
    Effects.empty⟩

/-- Review re-render after merging structured details (lines 445-468):
`request_id`/`decided_at` are preserved. -/
def reviewMergedResult (current : ConversationState) (updated : Collected) : TurnResult :=
  let summary := renderReviewSummary updated
  ⟨mkBookingResponse summary "review" none updated none
      (some "review_confirmation") (some summary) none none (some false) (some false),
    { current with
      mode := "booking", booking_active := true, pending_field := none,
      collected := updated, status := "review", recorded := false, mcp_recorded := false },
    Effects.empty⟩

/-- Completion of collection → review (lines 515-541 and 692-717):
`request_id` and `decided_at` are reset. -/
def collectCompleteResult (current : ConversationState) (collected : Collected) : TurnResult :=
  let summary := renderReviewSummary collected
  ⟨mkBookingResponse summary "review" none collected none
      (some "review_confirmation") (some summary) none none (some false) (some false),
    { current with
      mode := "booking", booking_active := true, pending_field := none,
      collected := collected, request_id := none, status := "review",
      recorded := false, mcp_recorded := false, decided_at := none },
    Effects.empty⟩

/-- The review no-op (lines 495-508): re-emit the summary, state unchanged. -/
def reviewNoopResult (current : ConversationState) : TurnResult :=
  let summary := renderReviewSummary current.collected
  ⟨mkBookingResponse summary "review" none current.collected none
      (some "review_confirmation") (some summary) none none (some current.recorded)
      (some current.mcp_recorded),
    current, Effects.empty⟩

/-- The review branch (lines 382-508). -/
def reviewTurn (text : String) (current : ConversationState) (env : Env) :
    Except Unit TurnResult :=
  if isConfirmCommand text then Except.ok (confirmResult current env)
  else
    let parsed := parse_structured_details text
    if parsedNonempty parsed then
      match apply_valid_parsed_details current.collected parsed with
      | Except.error e => Except.error e
      | Except.ok updated =>
          match next_missing_field updated with
          | some missing => Except.ok (promptResult current missing updated false false)
          | none => Except.ok (reviewMergedResult current updated)
    else
      match extractEditField text with
      | some f =>
          Except.ok (promptResult current f current.collected current.recorded
            current.mcp_recorded)
      | none => Except.ok (reviewNoopResult current)

/-- The invalid-value re-prompt (lines 565-595). -/
def invalidResult (current : ConversationState) (f : Field) (error : String)
    (suggestions : List String) : TurnResult :=
  ⟨mkBookingResponse ("Invalid " ++ fieldName f ++ ": " ++ error ++ " " ++ fieldPrompt f)
      "collecting" (some f) current.collected none (some "input") none
      (some suggestions) none (some current.recorded) (some current.mcp_recorded),
    { current with
      mode := "booking", booking_active := true, pending_field := some f,
      collected := current.collected, status := "collecting",
      recorded := current.recorded, mcp_recorded := current.mcp_recorded },
    Effects.empty⟩

/-- The outside-working-hours re-prompt (lines 600-630). -/
def outsideHoursResult (current : ConversationState) (f : Field)
    (suggestions : List String) (working_hours : String) : TurnResult :=
  let error_text :=
    if suggestions.isEmpty then
      "Requested time is outside working hours (" ++ working_hours ++ ")."
    else
      "Requested time is outside working hours (" ++ working_hours ++ "). Try: " ++
        String.intercalate " OR " suggestions ++ "."
  ⟨mkBookingResponse (error_text ++ " " ++ fieldPrompt f) "collecting" (some f)
      current.collected none (some "input") none (some suggestions) none
      (some current.recorded) (some current.mcp_recorded),
    { current with
      mode := "booking", booking_active := true, pending_field := some f,
      collected := current.collected, status := "collecting",
      recorded := current.recorded, mcp_recorded := current.mcp_recorded },
    Effects.empty⟩

/-- The no-free-spaces re-prompt (lines 632-659). -/
def noSpacesResult (current : ConversationState) (f : Field)
    (suggestions : List String) : TurnResult :=
  let unavailable_text :=
    if suggestions.isEmpty then "No spaces are currently available for that period."
    else
      "No spaces are currently available for that period. Suggested alternatives: " ++
        String.intercalate " OR " suggestions ++ "."
  ⟨mkBookingResponse (unavailable_text ++ " " ++ fieldPrompt f) "collecting" (some f)
      current.collected none (some "input") none (some suggestions) none
      (some current.recorded) (some current.mcp_recorded),
    { current with
      mode := "booking", booking_active := true, pending_field := some f,
      collected := current.collected, status := "collecting",
      recorded := current.recorded, mcp_recorded := current.mcp_recorded },
    Effects.empty⟩

/-- Accepting a validated value (lines 661-717): normalize, store,
advance to the next field or to review. -/
def acceptValue (text : String) (current : ConversationState) (f : Field) :
    Except Unit TurnResult :=
  let normalized : Except Unit String :=
    match f with
    | .car_number => Except.ok (normalize_car_number text)
    | .reservation_period => normalize_reservation_period text
    | _ => Except.ok text
  match normalized with
  | Except.error e => Except.error e
  | Except.ok v =>
      let collected := current.collected.set f v
      match nextField f with
      | some nf =>
          Except.ok (promptResult current nf collected current.recorded
            current.mcp_recorded)
      | none => Except.ok (collectCompleteResult current collected)

/-- The field-collection branch (lines 510-717). -/
def collectTurn (text : String) (current : ConversationState) (env : Env) :
    Except Unit TurnResult :=
  let f := current.pending_field.getD Field.name
  let parsed := parse_structured_details text
  if parsedNonempty parsed then
    match apply_valid_parsed_details current.collected parsed with
    | Except.error e => Except.error e
    | Except.ok updated =>
        match next_missing_field updated with
        | none => Except.ok (collectCompleteResult current updated)
        | some nf =>
            Except.ok (promptResult current nf updated current.recorded
              current.mcp_recorded)
  else
    match validate_field f text with
    | Except.error e => Except.error e
    | Except.ok (some error) =>
        match (if f = Field.reservation_period then
            suggest_alternative_periods text env.working_hours
          else Except.ok []) with
        | Except.error e => Except.error e
        | Except.ok suggestions =>
            let error2 :=
              if suggestions.isEmpty then error
              else error ++ " Try: " ++ String.intercalate " OR " suggestions ++ "."
            Except.ok (invalidResult current f error2 suggestions)
    | Except.ok none =>
        if f = Field.reservation_period then
          match is_period_within_working_hours text env.working_hours with
          | Except.error e => Except.error e
          | Except.ok within_hours =>
              if within_hours = some false then
                match suggest_alternative_periods text env.working_hours with
                | Except.error e => Except.error e
                | Except.ok suggestions =>
                    Except.ok (outsideHoursResult current f suggestions env.working_hours)
              else if env.available_spaces ≤ 0 then
                match suggest_alternative_periods text env.working_hours with
                | Except.error e => Except.error e
                | Except.ok suggestions =>
                    Except.ok (noSpacesResult current f suggestions)
              else acceptValue text current f
        else acceptValue text current f

/-- The info fallback branch (lines 719-745). -/
def infoTurn (current : ConversationState) (env : Env) : TurnResult :=
  let response :=
    match env.answer with
    | Except.ok a => a
    | Except.error _ =>
        "I cannot answer right now because the AI provider is unavailable. " ++
          "Please retry in a moment or start a booking request."
  ⟨mkPlainPayload response "info" (some "collecting"),
    { current with
      mode := "info", booking_active := false, pending_field := none,
      collected := Collected.empty, request_id := none, status := "collecting",
      recorded := false, mcp_recorded := false, decided_at := none },
    Effects.empty⟩

/-- `run_chat_turn`: one chat turn as a function of the message, the prior
state and the external environment; `Except.error ()` models a Python
exception propagating to the caller (no state is returned and no write
precedes any raise point). -/
def runChatTurn (message : String) (state : Option ConversationState) (env : Env) :
    Except Unit TurnResult :=
  let text := pyStrip message
  if pyIsEmpty text then Except.ok (emptyMsgResult (state.getD defaultState))
  else
    let current := state.getD defaultState
    if current.booking_active && isCancelCommand text then Except.ok (cancelTurn current)
    else if is_booking_keyword_intent text then Except.ok (restartTurn current)
    else if current.booking_active && (current.status == "pending") &&
        truthyOpt current.request_id then
      Except.ok (pendingTurn current env (current.request_id.getD ""))
    else if current.booking_active && (current.status == "review") then
      reviewTurn text current env
    else if current.booking_active && current.pending_field.isSome then
      collectTurn text current env
    else Except.ok (infoTurn current env)

/-- The state produced by a successful turn (used for reachability). -/
def nextStateOpt (message : String) (s : ConversationState) (env : Env) :
    Option ConversationState :=
  match runChatTurn message (some s) env with
  | Except.ok r => some r.state
  | Except.error _ => none

/-- A well-behaved persistence port allocates non-empty request ids
(the spec requires a non-empty `requestId` from `createApproval`). -/
def EnvWF (env : Env) : Prop := pyIsEmpty env.new_request_id = false

/-- States reachable by the engine from the initial state through turns
against well-behaved environments. -/
inductive Reachable : ConversationState → Prop where
  | base : Reachable defaultState
  | step (m : String) (s : ConversationState) (env : Env) (s' : ConversationState) :
      Reachable s → EnvWF env → nextStateOpt m s env = some s' → Reachable s'

deriving instance DecidableEq for Except

/-! ## Concrete fixtures used by witnesses and counterexamples -/

/-- A benign environment: no approval on file, fresh id `REQ1`, no record
callback, default working hours, free spaces, and a working answerer. -/
def envInfo : Env :=
  { approval := none, new_request_id := "REQ1", recorder := none, now := "NOW",
    working_hours := "Mon-Sun 06:00-23:00", available_spaces := 42,
    answer := Except.ok "info" }

/-- An approval exists but carries no decision yet. -/
def envNoDecision : Env := { envInfo with approval := some ⟨none⟩ }

def decApproved : Decision := ⟨some true, some "2026-02-21T08:00:00+00:00"⟩

/-- The administrator has approved the request. -/
def envApproved : Env := { envInfo with approval := some ⟨some decApproved⟩ }

/-- Approved, and a `record_reservation` callback is supplied and succeeds. -/
def envApprovedRec : Env := { envApproved with recorder := some (Except.ok ()) }

/-- Approved, and the `record_reservation` callback raises `disk full`. -/
def envApprovedFail : Env := { envApproved with recorder := some (Except.error "disk full") }

def collectedFull : Collected :=
  { name := some "Roman", surname := some "Shevchuk", car_number := some "AA1234BB",
    reservation_period := some "2026-02-20 09:00 to 2026-02-20 18:00" }

/-- The wizard start state (after a booking-intent trigger). -/
def sCollecting : ConversationState :=
  { defaultState with
    mode := "booking", booking_active := true, pending_field := some Field.name,
    status := "collecting" }

/-- The review state after all four fields have been supplied. -/
def sReview : ConversationState :=
  { defaultState with
    mode := "booking", booking_active := true, pending_field := none,
    collected := collectedFull, status := "review" }

/-- The pending state after `confirm` allocated request id `REQ1`. -/
def sPending : ConversationState :=
  { defaultState with
    mode := "booking", booking_active := true, pending_field := none,
    collected := collectedFull, request_id := some "REQ1", status := "pending" }

/-- The state returned by the approved transition when the ledger append
succeeded but the `record_reservation` callback failed. -/
def sPartialFailure : ConversationState :=
  { defaultState with
    mode := "booking", booking_active := false, pending_field := none,
    collected := collectedFull, request_id := some "REQ1", status := "approved",
    recorded := true, mcp_recorded := false,
    decided_at := some "2026-02-21T08:00:00+00:00",
    response_key := some "Confirmed and recorded." }

/-- A collecting state waiting for the reservation period. -/
def sCollectPeriod : ConversationState :=
  { defaultState with
    mode := "booking", booking_active := true,
    pending_field := some Field.reservation_period,
    collected := { name := some "Roman", surname := some "Shevchuk",
                   car_number := some "AA1234BB", reservation_period := none } }

/-! ## String containment helper lemmas -/

theorem startsWithL_nil (l : List Char) : startsWithL l [] = true := by
  cases l <;> rfl

theorem startsWithL_append (x y : List Char) : startsWithL (x ++ y) x = true := by
  induction x with
  | nil => rw [List.nil_append]; exact startsWithL_nil y
  | cons a as ih => simp [startsWithL, ih]

theorem hasSubstring_self_append (n y : List Char) : hasSubstring (n ++ y) n = true := by
  cases n with
  | nil => cases y <;> simp [hasSubstring, startsWithL]
  | cons c t =>
      unfold hasSubstring
      rw [List.cons_append]
      simp only [Bool.or_eq_true]
      left
      rw [← List.cons_append]
      exact startsWithL_append (c :: t) y

theorem toList_append (a b : String) : (a ++ b).toList = a.toList ++ b.toList := rfl

/-- A string contains each of its prefixes. -/
theorem strContains_append (a b : String) : strContains (a ++ b) a = true := by
  unfold strContains
  rw [toList_append]
  exact hasSubstring_self_append _ _

/-! ## Dedup lemmas (the Python `not in rendered` loop) -/

theorem dedupAppend_nodup (acc : List String) (x : String) (h : acc.Nodup) :
    (dedupAppend acc x).Nodup := by
  unfold dedupAppend
  split
  · exact h
  · rename_i hx
    refine List.Nodup.append h (List.nodup_singleton x) ?_
    intro b hb hb2
    rw [List.mem_singleton] at hb2
    subst hb2
    exact hx hb

theorem foldl_dedupAppend_nodup (l acc : List String) (h : acc.Nodup) :
    (l.foldl dedupAppend acc).Nodup := by
  induction l generalizing acc with
  | nil => exact h
  | cons a t ih => exact ih _ (dedupAppend_nodup acc a h)

theorem pyDedup_nodup (l : List String) : (pyDedup l).Nodup :=
  foldl_dedupAppend_nodup l [] List.nodup_nil

theorem foldl_dedupAppend_subset (l : List String) :
    ∀ acc, ∀ x ∈ l.foldl dedupAppend acc, x ∈ acc ∨ x ∈ l := by
  induction l with
  | nil => intro acc x hx; exact Or.inl hx
  | cons a t ih =>
      intro acc x hx
      rcases ih (dedupAppend acc a) x hx with h' | h'
      · unfold dedupAppend at h'
        split at h'
        · exact Or.inl h'
        · rcases List.mem_append.mp h' with h'' | h''
          · exact Or.inl h''
          · rw [List.mem_singleton] at h''
            exact Or.inr (by rw [h'']; exact List.mem_cons_self a t)
      · exact Or.inr (List.mem_cons_of_mem a h')

theorem pyDedup_subset (l : List String) : ∀ x ∈ pyDedup l, x ∈ l := by
  intro x hx
  rcases foldl_dedupAppend_subset l [] x hx with h | h
  · exact absurd h (List.not_mem_nil x)
  · exact h

/-! ## Structural lemmas about `runChatTurn` -/

/-- The state-machine invariants of the data model (spec §3). -/
def StateInv (s : ConversationState) : Prop :=
  (s.pending_field ≠ none → s.status = "collecting") ∧
  (s.request_id ≠ none →
    s.status = "pending" ∨ s.status = "approved" ∨ s.status = "declined")

/-- Shape of every engine-produced pending state: booking mode, no pending
field, no decision timestamp, and a truthy request id. -/
def PendShape (s : ConversationState) : Prop :=
  s.booking_active = true → s.status = "pending" →
    s.mode = "booking" ∧ s.pending_field = none ∧ s.decided_at = none ∧
      truthyOpt s.request_id = true

/-- Exhaustive branch analysis of a successful turn. -/
theorem run_cases (m : String) (s : ConversationState) (env : Env) (r : TurnResult)
    (h : runChatTurn m (some s) env = Except.ok r) :
    (pyIsEmpty (pyStrip m) = true ∧ r = emptyMsgResult s) ∨
    (s.booking_active = true ∧ isCancelCommand (pyStrip m) = true ∧ r = cancelTurn s) ∨
    (is_booking_keyword_intent (pyStrip m) = true ∧ r = restartTurn s) ∨
    (s.booking_active = true ∧ s.status = "pending" ∧ truthyOpt s.request_id = true ∧
      r = pendingTurn s env (s.request_id.getD "")) ∨
    (s.booking_active = true ∧ s.status = "review" ∧
      reviewTurn (pyStrip m) s env = Except.ok r) ∨
    (s.booking_active = true ∧ s.pending_field.isSome = true ∧
      collectTurn (pyStrip m) s env = Except.ok r) ∨
    (r = infoTurn s env) := by
  unfold runChatTurn at h
  simp only [Option.getD_some] at h
  split at h
  · exact Or.inl ⟨by assumption, by cases h; rfl⟩
  · split at h
    · rename_i hc
      simp only [Bool.and_eq_true] at hc
      exact Or.inr (Or.inl ⟨hc.1, hc.2, by cases h; rfl⟩)
    · split at h
      · exact Or.inr (Or.inr (Or.inl ⟨by assumption, by cases h; rfl⟩))
      · split at h
        · rename_i hc
          simp only [Bool.and_eq_true, beq_iff_eq] at hc
          exact Or.inr (Or.inr (Or.inr (Or.inl ⟨hc.1.1, hc.1.2, hc.2, by cases h; rfl⟩)))
        · split at h
          · rename_i hc
            simp only [Bool.and_eq_true, beq_iff_eq] at hc
            exact Or.inr (Or.inr (Or.inr (Or.inr (Or.inl ⟨hc.1, hc.2, h⟩))))
          · split at h
            · rename_i hc
              simp only [Bool.and_eq_true] at hc
              exact Or.inr (Or.inr (Or.inr (Or.inr (Or.inr (Or.inl ⟨hc.1, hc.2, h⟩)))))
            · exact Or.inr (Or.inr (Or.inr (Or.inr (Or.inr (Or.inr (by cases h; rfl))))))

/-- Shape analysis of the pending branch. -/
theorem pendingTurn_shape (s : ConversationState) (env : Env) (rid : String) :
    (∃ d, Option.bind env.approval Approval.decision = some d ∧ d.approved = some true ∧
      pendingTurn s env rid = approvedResult s env rid d) ∨
    (∃ d, Option.bind env.approval Approval.decision = some d ∧ d.approved = some false ∧
      pendingTurn s env rid = declinedResult s rid d) ∨
    pendingTurn s env rid = stillPendingResult s rid := by
  unfold pendingTurn
  cases hd : Option.bind env.approval Approval.decision with
  | none => exact Or.inr (Or.inr rfl)
  | some d =>
      by_cases h1 : d.approved = some true
      · exact Or.inl ⟨d, rfl, h1, by simp [h1]⟩
      · by_cases h2 : d.approved = some false
        · exact Or.inr (Or.inl ⟨d, rfl, h2, by simp [h1, h2]⟩)
        · exact Or.inr (Or.inr (by simp [h1, h2]))

/-- Shape analysis of the review branch. -/
theorem reviewTurn_shape (t : String) (s : ConversationState) (env : Env) (r : TurnResult)
    (h : reviewTurn t s env = Except.ok r) :
    r = confirmResult s env ∨
    (∃ f coll rec mcp, r = promptResult s f coll rec mcp) ∨
    (∃ upd, r = reviewMergedResult s upd) ∨
    r = reviewNoopResult s := by
  unfold reviewTurn at h
  simp only [] at h
  repeat' split at h
  all_goals
    first
    | exact Except.noConfusion h
    | exact Or.inl (by cases h; rfl)
    | exact Or.inr (Or.inl ⟨_, _, _, _, by cases h; rfl⟩)
    | exact Or.inr (Or.inr (Or.inl ⟨_, by cases h; rfl⟩))
    | exact Or.inr (Or.inr (Or.inr (by cases h; rfl)))

/-- Shape analysis of the field-collection branch. -/
theorem collectTurn_shape (t : String) (s : ConversationState) (env : Env) (r : TurnResult)
    (h : collectTurn t s env = Except.ok r) :
    (∃ coll, r = collectCompleteResult s coll) ∨
    (∃ f coll rec mcp, r = promptResult s f coll rec mcp) ∨
    (∃ f e sug, r = invalidResult s f e sug) ∨
    (∃ f sug wh, r = outsideHoursResult s f sug wh) ∨
    (∃ f sug, r = noSpacesResult s f sug) := by
  unfold collectTurn at h
  unfold acceptValue at h
  simp only [] at h
  repeat' split at h
  all_goals
    first
    | exact Except.noConfusion h
    | exact Or.inl ⟨_, by cases h; rfl⟩
    | exact Or.inr (Or.inl ⟨_, _, _, _, by cases h; rfl⟩)
    | exact Or.inr (Or.inr (Or.inl ⟨_, _, _, by cases h; rfl⟩))
    | exact Or.inr (Or.inr (Or.inr (Or.inl ⟨_, _, _, by cases h; rfl⟩)))
    | exact Or.inr (Or.inr (Or.inr (Or.inr ⟨_, _, by cases h; rfl⟩)))

/-- When the pending branch is not taken, a turn performs no ledger append
and no recorder call (`create_approval` is the review branch's only write). -/
theorem no_pending_no_append (m : String) (s : ConversationState) (env : Env)
    (r : TurnResult) (h : runChatTurn m (some s) env = Except.ok r)
    (hnp : ¬(s.booking_active = true ∧ s.status = "pending")) :
    r.effects.appends = [] ∧ r.effects.recorder_calls = [] := by
  rcases run_cases m s env r h with
    ⟨_, rfl⟩ | ⟨_, _, rfl⟩ | ⟨_, rfl⟩ | ⟨ha, hs, _, rfl⟩ | ⟨_, _, hr⟩ | ⟨_, _, hc⟩ | rfl
  · exact ⟨rfl, rfl⟩
  · exact ⟨rfl, rfl⟩
  · exact ⟨rfl, rfl⟩
  · exact absurd ⟨ha, hs⟩ hnp
  · rcases reviewTurn_shape _ _ _ _ hr with rfl | ⟨f, c, rec, mcp, rfl⟩ | ⟨u, rfl⟩ | rfl
    all_goals exact ⟨rfl, rfl⟩
  · rcases collectTurn_shape _ _ _ _ hc with
      ⟨c, rfl⟩ | ⟨f, c, rec, mcp, rfl⟩ | ⟨f, e, sg, rfl⟩ | ⟨f, sg, w, rfl⟩ | ⟨f, sg, rfl⟩
    all_goals exact ⟨rfl, rfl⟩
  · exact ⟨rfl, rfl⟩

/-- Entering the pending branch under the stated guard conditions. -/
theorem run_pending_eq (m : String) (s : ConversationState) (env : Env)
    (hne : pyIsEmpty (pyStrip m) = false) (hnc : isCancelCommand (pyStrip m) = false)
    (hnk : is_booking_keyword_intent (pyStrip m) = false)
    (ha : s.booking_active = true) (hs : s.status = "pending")
    (ht : truthyOpt s.request_id = true) :
    runChatTurn m (some s) env =
      Except.ok (pendingTurn s env (s.request_id.getD "")) := by
  unfold runChatTurn
  simp [hne, hnc, hnk, ha, hs, ht]

theorem pendingTurn_approved (s : ConversationState) (env : Env) (rid : String)
    (d : Decision) (hd : Option.bind env.approval Approval.decision = some d)
    (hap : d.approved = some true) :
    pendingTurn s env rid = approvedResult s env rid d := by
  unfold pendingTurn
  rw [hd]
  simp [hap]

theorem pendingTurn_no_decision (s : ConversationState) (env : Env) (rid : String)
    (hd : Option.bind env.approval Approval.decision = none) :
    pendingTurn s env rid = stillPendingResult s rid := by
  unfold pendingTurn
  rw [hd]

/-- A review-state or collecting-state input satisfying the invariants has
no request id. -/
theorem request_none_of_inv (s : ConversationState)
    (h2 : s.request_id ≠ none →
      s.status = "pending" ∨ s.status = "approved" ∨ s.status = "declined")
    (hs : s.status = "review" ∨ s.status = "collecting") :
    s.request_id = none := by
  by_contra hne
  rcases h2 hne with h' | h' | h' <;> rcases hs with hs | hs <;>
    rw [hs] at h' <;> exact absurd h' (by decide)

/-- One turn preserves both data-model invariants. -/
theorem step_preserves_StateInv (m : String) (s : ConversationState) (env : Env)
    (r : TurnResult) (hinv : StateInv s)
    (h : runChatTurn m (some s) env = Except.ok r) : StateInv r.state := by
  obtain ⟨h1, h2⟩ := hinv
  rcases run_cases m s env r h with
    ⟨_, rfl⟩ | ⟨ha, _, rfl⟩ | ⟨_, rfl⟩ | ⟨ha, hs, _, rfl⟩ | ⟨ha, hs, hr⟩ | ⟨ha, hp, hc⟩ | rfl
  · exact ⟨h1, h2⟩
  · constructor <;> intro hx <;> simp [cancelTurn] at hx
  · constructor
    · intro _; rfl
    · intro hx; simp [restartTurn] at hx
  · rcases pendingTurn_shape s env (s.request_id.getD "") with
      ⟨d, _, _, heq⟩ | ⟨d, _, _, heq⟩ | heq <;> rw [heq] <;> constructor
    · intro hx; simp [approvedResult] at hx
    · intro _; simp [approvedResult]
    · intro hx; simp [declinedResult] at hx
    · intro _; simp [declinedResult]
    · intro hx; simp [stillPendingResult] at hx
    · intro _; simp [stillPendingResult]
  · have hreq : s.request_id = none := request_none_of_inv s h2 (Or.inl hs)
    rcases reviewTurn_shape _ _ _ _ hr with rfl | ⟨f, c, rec, mcp, rfl⟩ | ⟨u, rfl⟩ | rfl
    · constructor
      · intro hx; simp [confirmResult] at hx
      · intro _; simp [confirmResult]
    · constructor
      · intro _; rfl
      · intro hx; simp [promptResult, hreq] at hx
    · constructor
      · intro hx; simp [reviewMergedResult] at hx
      · intro hx; simp [reviewMergedResult, hreq] at hx
    · exact ⟨h1, h2⟩
  · have hcol : s.status = "collecting" := by
      refine h1 ?_
      simp only [← Option.isSome_iff_ne_none, hp]
    have hreq : s.request_id = none := request_none_of_inv s h2 (Or.inr hcol)
    rcases collectTurn_shape _ _ _ _ hc with
      ⟨c, rfl⟩ | ⟨f, c, rec, mcp, rfl⟩ | ⟨f, e, sg, rfl⟩ | ⟨f, sg, w, rfl⟩ | ⟨f, sg, rfl⟩
    · constructor
      · intro hx; simp [collectCompleteResult] at hx
      · intro hx; simp [collectCompleteResult] at hx
    · constructor
      · intro _; rfl
      · intro hx; simp [promptResult, hreq] at hx
    · constructor
      · intro _; rfl
      · intro hx; simp [invalidResult, hreq] at hx
    · constructor
      · intro _; rfl
      · intro hx; simp [outsideHoursResult, hreq] at hx
    · constructor
      · intro _; rfl
      · intro hx; simp [noSpacesResult, hreq] at hx
  · constructor <;> intro hx <;> simp [infoTurn] at hx

/-- One turn against a well-behaved environment preserves the pending-state
shape invariant. -/
theorem step_preserves_PendShape (m : String) (s : ConversationState) (env : Env)
    (r : TurnResult) (hps : PendShape s) (hwf : EnvWF env)
    (h : runChatTurn m (some s) env = Except.ok r) : PendShape r.state := by
  rcases run_cases m s env r h with
    ⟨_, rfl⟩ | ⟨ha, _, rfl⟩ | ⟨_, rfl⟩ | ⟨ha, hs, ht, rfl⟩ | ⟨ha, hs, hr⟩ | ⟨ha, hp, hc⟩ | rfl
  · exact hps
  · intro hba _; simp [cancelTurn] at hba
  · intro _ hst; simp [restartTurn] at hst
  · rcases pendingTurn_shape s env (s.request_id.getD "") with
      ⟨d, _, _, heq⟩ | ⟨d, _, _, heq⟩ | heq <;> rw [heq]
    · intro hba _; simp [approvedResult] at hba
    · intro hba _; simp [declinedResult] at hba
    · intro _ _
      refine ⟨rfl, rfl, rfl, ?_⟩
      simpa [stillPendingResult] using ht
  · rcases reviewTurn_shape _ _ _ _ hr with rfl | ⟨f, c, rec, mcp, rfl⟩ | ⟨u, rfl⟩ | rfl
    · intro _ _
      refine ⟨rfl, rfl, rfl, ?_⟩
      simp only [confirmResult, truthyOpt, Bool.not_eq_true']
      exact hwf
    · intro _ hst; simp [promptResult] at hst
    · intro _ hst; simp [reviewMergedResult] at hst
    · exact hps
  · rcases collectTurn_shape _ _ _ _ hc with
      ⟨c, rfl⟩ | ⟨f, c, rec, mcp, rfl⟩ | ⟨f, e, sg, rfl⟩ | ⟨f, sg, w, rfl⟩ | ⟨f, sg, rfl⟩
    · intro _ hst; simp [collectCompleteResult] at hst
    · intro _ hst; simp [promptResult] at hst
    · intro _ hst; simp [invalidResult] at hst
    · intro _ hst; simp [outsideHoursResult] at hst
    · intro _ hst; simp [noSpacesResult] at hst
  · intro hba _; simp [infoTurn] at hba

/-- Every engine-reachable state satisfies the pending-state shape. -/
theorem reachable_PendShape (s : ConversationState) (h : Reachable s) : PendShape s := by
  induction h with
  | base => intro hba _; simp [defaultState] at hba
  | step m s env s' _ hwf hstep ih =>
      unfold nextStateOpt at hstep
      cases hrun : runChatTurn m (some s) env with
      | error e => rw [hrun] at hstep; exact absurd hstep (by simp)
      | ok r =>
          rw [hrun] at hstep
          simp only [Option.some.injEq] at hstep
          subst hstep
          exact step_preserves_PendShape m s env r ih hwf hrun

/-- Only the approved transition touches the extra `"response"` state key;
every other branch carries it through unchanged. -/
theorem response_key_step (m : String) (s : ConversationState) (env : Env)
    (r : TurnResult) (h : runChatTurn m (some s) env = Except.ok r) :
    r.state.response_key = s.response_key ∨
    (s.booking_active = true ∧ s.status = "pending" ∧
      r.state.response_key = some "Confirmed and recorded." ∧
      r.state.status = "approved") := by
  rcases run_cases m s env r h with
    ⟨_, rfl⟩ | ⟨ha, _, rfl⟩ | ⟨_, rfl⟩ | ⟨ha, hs, ht, rfl⟩ | ⟨ha, hs, hr⟩ | ⟨ha, hp, hc⟩ | rfl
  · exact Or.inl rfl
  · exact Or.inl rfl
  · exact Or.inl rfl
  · rcases pendingTurn_shape s env (s.request_id.getD "") with
      ⟨d, _, _, heq⟩ | ⟨d, _, _, heq⟩ | heq <;> rw [heq]
    · exact Or.inr ⟨ha, hs, rfl, rfl⟩
    · exact Or.inl rfl
    · exact Or.inl rfl
  · rcases reviewTurn_shape _ _ _ _ hr with rfl | ⟨f, c, rec, mcp, rfl⟩ | ⟨u, rfl⟩ | rfl
    all_goals exact Or.inl rfl
  · rcases collectTurn_shape _ _ _ _ hc with
      ⟨c, rfl⟩ | ⟨f, c, rec, mcp, rfl⟩ | ⟨f, e, sg, rfl⟩ | ⟨f, sg, w, rfl⟩ | ⟨f, sg, rfl⟩
    all_goals exact Or.inl rfl
  · exact Or.inl rfl

/-! ## Claim theorems -/

/-- **C1** (exactly-once ledger write): for every pending-state invocation
of `run_chat_turn` observing an approved decision, `append_reservation` is
called iff the state's `recorded` flag is false (the appended record keyed
by the state's `request_id`), the returned state has `recorded = true`,
and a second turn run from the returned state — any message, any
environment — appends nothing, so polling the approved request twice
appends exactly one ledger record. -/
theorem C1_exactly_once_ledger_write (m : String) (s : ConversationState) (env : Env)
    (rid : String) (d : Decision)
    (hne : pyIsEmpty (pyStrip m) = false)
    (hnc : isCancelCommand (pyStrip m) = false)
    (hnk : is_booking_keyword_intent (pyStrip m) = false)
    (ha : s.booking_active = true) (hs : s.status = "pending")
    (hrid : s.request_id = some rid) (hrid2 : pyIsEmpty rid = false)
    (hd : Option.bind env.approval Approval.decision = some d)
    (hap : d.approved = some true) :
    ∃ r, runChatTurn m (some s) env = Except.ok r ∧
      r.effects.appends.length = (if s.recorded then 0 else 1) ∧
      r.state.recorded = true ∧ r.state.status = "approved" ∧
      r.state.booking_active = false ∧
      (∀ entry ∈ r.effects.appends, entry.request_id = some rid) ∧
      (∀ m2 env2 r2, runChatTurn m2 (some r.state) env2 = Except.ok r2 →
        r2.effects.appends = []) := by
  have ht : truthyOpt s.request_id = true := by
    rw [hrid]
    simp [truthyOpt, hrid2]
  have hrun := run_pending_eq m s env hne hnc hnk ha hs ht
  have hgd : s.request_id.getD "" = rid := by rw [hrid]; rfl
  rw [hgd, pendingTurn_approved s env rid d hd hap] at hrun
  refine ⟨_, hrun, ?_, rfl, rfl, rfl, ?_, ?_⟩
  · by_cases hr : s.recorded = true
    · simp [approvedResult, hr]
    · simp [approvedResult, hr]
  · intro entry hentry
    by_cases hr : s.recorded = true
    · simp [approvedResult, hr] at hentry
    · simp [approvedResult, hr] at hentry
      rw [hentry]
  · intro m2 env2 r2 h2
    refine (no_pending_no_append m2 _ env2 r2 h2 ?_).1
    rintro ⟨hba, _⟩
    simp [approvedResult] at hba

/-- **C1 witness**: polling `sPending` (with `recorded = false`) against an
approved decision appends exactly one record and marks `recorded`. -/
theorem C1_witness :
    Except.map (fun r => (r.effects.appends.length, r.state.recorded, r.state.status))
      (runChatTurn "status?" (some sPending) envApproved) =
      Except.ok (1, true, "approved") := by
  obtain ⟨r, hrun, h1, h2, h3, _, _⟩ :=
    C1_exactly_once_ledger_write "status?" sPending envApproved "REQ1" decApproved
      (by decide) (by decide) (by decide) (by decide) (by decide) (by decide)
      (by decide) (by decide) (by decide)
  rw [hrun]
  simp only [Except.map]
  rw [h1, h2, h3]
  rfl

/-- **C2 counterexample**: the claim says a subsequent turn after a partial
failure (ledger ok, recorder failed) "invokes record_reservation again".
It does not: `sPartialFailure` is exactly the state the approved turn
returns after such a failure (`recorded = true`, `mcp_recorded = false`,
`status = "approved"`, `booking_active = false`), a recorder callback is
available, yet the next turn performs zero recorder calls (and zero
appends) because the approved branch requires `status = "pending"`. -/
theorem C2_counterexample :
    sPartialFailure.recorded = true ∧ sPartialFailure.mcp_recorded = false ∧
    envApprovedRec.recorder.isSome = true ∧
    Except.map (fun r => (r.effects.recorder_calls.length, r.effects.appends.length))
      (runChatTurn "status?" (some sPartialFailure) envApprovedRec) =
      Except.ok (0, 0) := by
  refine ⟨rfl, rfl, rfl, ?_⟩
  decide

/-- **C2 amended**: after a partial failure in the approved transition the
engine does *not* retry the missing half on a subsequent turn: the
partial-failure turn returns `status = "approved"`, `booking_active = false`,
and from such a state no later turn calls `record_reservation` or
`append_reservation` again (first conjunct).  The flag independence the
claim describes does hold *within* the approved branch: entered with
`recorded = true` and `mcp_recorded = false` it would invoke only
`record_reservation` and not `append_reservation` (second conjunct). -/
theorem C2_partial_failure_no_retry :
    (∀ m s env rid d emsg,
      pyIsEmpty (pyStrip m) = false → isCancelCommand (pyStrip m) = false →
      is_booking_keyword_intent (pyStrip m) = false →
      s.booking_active = true → s.status = "pending" →
      s.request_id = some rid → pyIsEmpty rid = false →
      Option.bind env.approval Approval.decision = some d → d.approved = some true →
      s.recorded = false → s.mcp_recorded = false →
      env.recorder = some (Except.error emsg) →
      ∃ r, runChatTurn m (some s) env = Except.ok r ∧
        r.effects.appends.length = 1 ∧ r.effects.recorder_calls.length = 1 ∧
        r.state.recorded = true ∧ r.state.mcp_recorded = false ∧
        r.state.status = "approved" ∧ r.state.booking_active = false ∧
        (∀ m2 env2 r2, runChatTurn m2 (some r.state) env2 = Except.ok r2 →
          r2.effects.recorder_calls = [] ∧ r2.effects.appends = [])) ∧
    (∀ m s env rid d res,
      pyIsEmpty (pyStrip m) = false → isCancelCommand (pyStrip m) = false →
      is_booking_keyword_intent (pyStrip m) = false →
      s.booking_active = true → s.status = "pending" →
      s.request_id = some rid → pyIsEmpty rid = false →
      Option.bind env.approval Approval.decision = some d → d.approved = some true →
      s.recorded = true → s.mcp_recorded = false → env.recorder = some res →
      ∃ r, runChatTurn m (some s) env = Except.ok r ∧
        r.effects.appends = [] ∧ r.effects.recorder_calls.length = 1) := by
  constructor
  · intro m s env rid d emsg hne hnc hnk ha hs hrid hrid2 hd hap hrec hmcp hcb
    have ht : truthyOpt s.request_id = true := by
      rw [hrid]
      simp [truthyOpt, hrid2]
    have hrun := run_pending_eq m s env hne hnc hnk ha hs ht
    have hgd : s.request_id.getD "" = rid := by rw [hrid]; rfl
    rw [hgd, pendingTurn_approved s env rid d hd hap] at hrun
    refine ⟨_, hrun, ?_, ?_, rfl, ?_, rfl, rfl, ?_⟩
    · simp [approvedResult, hrec]
    · simp [approvedResult, hcb, hmcp]
    · simp [approvedResult, hcb, hmcp]
    · intro m2 env2 r2 h2
      have := no_pending_no_append m2 _ env2 r2 h2 (by
        rintro ⟨hba, _⟩
        simp [approvedResult] at hba)
      exact ⟨this.2, this.1⟩
  · intro m s env rid d res hne hnc hnk ha hs hrid hrid2 hd hap hrec hmcp hcb
    have ht : truthyOpt s.request_id = true := by
      rw [hrid]
      simp [truthyOpt, hrid2]
    have hrun := run_pending_eq m s env hne hnc hnk ha hs ht
    have hgd : s.request_id.getD "" = rid := by rw [hrid]; rfl
    rw [hgd, pendingTurn_approved s env rid d hd hap] at hrun
    refine ⟨_, hrun, ?_, ?_⟩
    · simp [approvedResult, hrec]
    · cases res with
      | ok u => simp [approvedResult, hcb, hmcp]
      | error msg => simp [approvedResult, hcb, hmcp]

/-- **C2 witness**: the partial-failure turn itself (ledger append plus a
failing recorder call), whose returned state matches `sPartialFailure`'s
shape. -/
theorem C2_witness :
    Except.map (fun r => (r.effects.appends.length, r.effects.recorder_calls.length,
        r.state.recorded, r.state.mcp_recorded, r.state.status, r.state.booking_active))
      (runChatTurn "status?" (some sPending) envApprovedFail) =
      Except.ok (1, 1, true, false, "approved", false) := by
  obtain ⟨r, hrun, h1, h2, h3, h4, h5, h6, _⟩ :=
    C2_partial_failure_no_retry.1 "status?" sPending envApprovedFail "REQ1" decApproved
      "disk full" (by decide) (by decide) (by decide) (by decide) (by decide)
      (by decide) (by decide) (by decide) (by decide) (by decide) (by decide) (by decide)
  rw [hrun]
  simp only [Except.map]
  rw [h1, h2, h3, h4, h5, h6]

/-- **C3** (idempotence of polling): for every engine-reachable state with
`booking_active = true`, `status = "pending"` and a non-null `request_id`,
a turn whose message reaches the pending branch and observes no decision
returns the input state unchanged with no writes (no `create_approval`, no
`append_reservation`, no `record_reservation` call), and repeating the
turn from the returned state yields the identical result — hence the same
response on every repetition. -/
theorem C3_pending_poll_idempotent (m : String) (s : ConversationState) (env : Env)
    (hreach : Reachable s) (ha : s.booking_active = true) (hs : s.status = "pending")
    (hrid : s.request_id ≠ none)
    (hne : pyIsEmpty (pyStrip m) = false) (hnc : isCancelCommand (pyStrip m) = false)
    (hnk : is_booking_keyword_intent (pyStrip m) = false)
    (hnd : Option.bind env.approval Approval.decision = none) :
    ∃ r, runChatTurn m (some s) env = Except.ok r ∧ r.state = s ∧
      r.effects = Effects.empty ∧
      (∀ r2, runChatTurn m (some r.state) env = Except.ok r2 → r2 = r) := by
  obtain ⟨hmode, hpf, hdec, ht⟩ := reachable_PendShape s hreach ha hs
  have hrun := run_pending_eq m s env hne hnc hnk ha hs ht
  rw [pendingTurn_no_decision s env _ hnd] at hrun
  have hst : (stillPendingResult s (s.request_id.getD "")).state = s := by
    obtain ⟨mo, ba, pf, co, ri, st, re, mc, de, rk⟩ := s
    simp only [stillPendingResult]
    simp_all
  refine ⟨stillPendingResult s (s.request_id.getD ""), hrun, hst, rfl, ?_⟩
  intro r2 h2
  rw [hst] at h2
  rw [hrun] at h2
  exact (Except.ok.injEq _ _).mp h2.symm

/-- **C3 witness**: `sPending` is reached by an actual three-turn run
(booking trigger, structured details, confirm); polling it with no
decision on file returns it unchanged with empty effects. -/
theorem C3_witness :
    Except.map (fun r => (r.state, r.effects))
      (runChatTurn "status?" (some sPending) envNoDecision) =
      Except.ok (sPending, Effects.empty) := by
  have reach : Reachable sPending :=
    Reachable.step "confirm" sReview envInfo sPending
      (Reachable.step
        "name: Roman; surname: Shevchuk; car: AA 1234 BB; period: 2026-02-20 09:00 to 2026-02-20 18:00"
        sCollecting envInfo sReview
        (Reachable.step "book" defaultState envInfo sCollecting
          Reachable.base (by unfold EnvWF; decide) (by decide))
        (by unfold EnvWF; decide) (by decide))
      (by unfold EnvWF; decide) (by decide)
  obtain ⟨r, hrun, hst, heff, _⟩ :=
    C3_pending_poll_idempotent "status?" sPending envNoDecision reach
      (by decide) (by decide) (by decide) (by decide) (by decide) (by decide) (by decide)
  rw [hrun]
  simp only [Except.map]
  rw [hst, heff]

/-- **C4** (state-machine invariant preservation): for every input state
satisfying both data-model invariants — `pending_field` non-null only in
`collecting`, `request_id` non-null only in `pending`/`approved`/`declined`
— and every message, any state `run_chat_turn` returns satisfies both
invariants as well. -/
theorem C4_state_invariants_preserved (s : ConversationState) (m : String) (env : Env)
    (r : TurnResult) (hinv : StateInv s)
    (h : runChatTurn m (some s) env = Except.ok r) : StateInv r.state :=
  step_preserves_StateInv m s env r hinv h

/-- **C4 witness**: the invariants, holding of the initial state, still
hold of the state an informational turn returns. -/
theorem C4_witness : StateInv (infoTurn defaultState envInfo).state := by
  refine C4_state_invariants_preserved defaultState "hello" envInfo
    (infoTurn defaultState envInfo) ⟨?_, ?_⟩ (by decide) <;> decide

/-- **C5** (new-booking reset): any message matching the booking-intent
keywords (and, while a booking is active, not recognized as a cancel
command) restarts the wizard: the returned state has `mode = "booking"`,
`booking_active = true`, `pending_field = name`, `status = "collecting"`,
and empty `collected`, null `request_id`, cleared `recorded`,
`mcp_recorded` and `decided_at`, whatever stale values the prior state
held. -/
theorem C5_new_booking_reset (s : ConversationState) (m : String) (env : Env)
    (hne : pyIsEmpty (pyStrip m) = false)
    (hkw : is_booking_keyword_intent (pyStrip m) = true)
    (hnc : s.booking_active = true → isCancelCommand (pyStrip m) = false) :
    ∃ r, runChatTurn m (some s) env = Except.ok r ∧
      r.state.mode = "booking" ∧ r.state.booking_active = true ∧
      r.state.pending_field = some Field.name ∧ r.state.status = "collecting" ∧
      r.state.collected = Collected.empty ∧ r.state.request_id = none ∧
      r.state.recorded = false ∧ r.state.mcp_recorded = false ∧
      r.state.decided_at = none := by
  have hcg : (s.booking_active && isCancelCommand (pyStrip m)) = false := by
    cases hba : s.booking_active with
    | false => simp
    | true => simp [hnc hba]
  refine ⟨restartTurn s, ?_, rfl, rfl, rfl, rfl, rfl, rfl, rfl, rfl, rfl⟩
  unfold runChatTurn
  simp [hne, hcg, hkw]

/-- **C5 witness**: the booking trigger wipes the stale
`request_id`/`recorded`/`decided_at`/`collected` of a finished booking. -/
theorem C5_witness :
    Except.map (fun r => (r.state.mode, r.state.booking_active, r.state.pending_field,
        r.state.status, r.state.collected, r.state.request_id, r.state.recorded,
        r.state.mcp_recorded, r.state.decided_at))
      (runChatTurn "book" (some sPartialFailure) envInfo) =
      Except.ok ("booking", true, some Field.name, "collecting", Collected.empty,
        none, false, false, none) := by
  obtain ⟨r, hrun, h1, h2, h3, h4, h5, h6, h7, h8, h9⟩ :=
    C5_new_booking_reset sPartialFailure "book" envInfo (by decide) (by decide)
      (fun _ => by decide)
  rw [hrun]
  simp only [Except.map]
  rw [h1, h2, h3, h4, h5, h6, h7, h8, h9]

/-- **C9** (implicit): with no active booking, the message
`"cancel booking"` is treated as a booking-intent trigger — it contains
the keyword `"booking"` and the cancel check requires an active booking —
so the engine starts the wizard (`status = "collecting"`,
`pending_field = name`) instead of returning a cancelled or informational
response. -/
theorem C9_cancel_booking_starts_wizard (s : ConversationState) (env : Env)
    (hba : s.booking_active = false) :
    ∃ r, runChatTurn "cancel booking" (some s) env = Except.ok r ∧
      r.state.status = "collecting" ∧ r.state.pending_field = some Field.name ∧
      r.state.booking_active = true ∧ r.state.mode = "booking" ∧
      r.payload.response = "Please provide your name." := by
  refine ⟨restartTurn s, ?_, rfl, rfl, rfl, rfl, rfl⟩
  unfold runChatTurn
  simp only [Option.getD_some]
  have h1 : pyIsEmpty (pyStrip "cancel booking") = false := by decide
  have h2 : is_booking_keyword_intent (pyStrip "cancel booking") = true := by decide
  simp [h1, h2, hba]

/-- **C9 witness**: `"cancel booking"` on a fresh thread starts collecting. -/
theorem C9_witness :
    Except.map (fun r => (r.state.status, r.state.pending_field,
        r.state.booking_active, r.state.mode, r.payload.response))
      (runChatTurn "cancel booking" (some defaultState) envInfo) =
      Except.ok ("collecting", some Field.name, true, "booking",
        "Please provide your name.") := by
  obtain ⟨r, hrun, h1, h2, h3, h4, h5⟩ :=
    C9_cancel_booking_starts_wizard defaultState envInfo (by decide)
  rw [hrun]
  simp only [Except.map]
  rw [h1, h2, h3, h4, h5]

/-- **C10** (implicit, frame effect): whenever the approved transition
fires (pending branch, approved decision), the returned state dict
carries, in addition to the nine `ConversationState` fields, the extra
`"response"` key with value `"Confirmed and recorded."` (first conjunct;
the Turn Host persists this state as-is).  No other branch adds this key:
a turn from any state without the key either returns a state still
without it or fired exactly that approved transition (second conjunct). -/
theorem C10_response_key_only_in_approved :
    (∀ m s env rid d,
      pyIsEmpty (pyStrip m) = false → isCancelCommand (pyStrip m) = false →
      is_booking_keyword_intent (pyStrip m) = false →
      s.booking_active = true → s.status = "pending" →
      s.request_id = some rid → pyIsEmpty rid = false →
      Option.bind env.approval Approval.decision = some d → d.approved = some true →
      ∃ r, runChatTurn m (some s) env = Except.ok r ∧
        r.state.response_key = some "Confirmed and recorded." ∧
        r.payload.response = "Confirmed and recorded.") ∧
    (∀ m s env r, runChatTurn m (some s) env = Except.ok r →
      s.response_key = none →
      r.state.response_key = none ∨
      (s.booking_active = true ∧ s.status = "pending" ∧
        r.state.response_key = some "Confirmed and recorded." ∧
        r.state.status = "approved")) := by
  constructor
  · intro m s env rid d hne hnc hnk ha hs hrid hrid2 hd hap
    have ht : truthyOpt s.request_id = true := by
      rw [hrid]
      simp [truthyOpt, hrid2]
    have hrun := run_pending_eq m s env hne hnc hnk ha hs ht
    have hgd : s.request_id.getD "" = rid := by rw [hrid]; rfl
    rw [hgd, pendingTurn_approved s env rid d hd hap] at hrun
    refine ⟨_, hrun, rfl, ?_⟩
    unfold approvedResult
    simp only []
    repeat' split
    all_goals rfl
  · intro m s env r h hnone
    rcases response_key_step m s env r h with h' | ⟨ha, hs, hk, has⟩
    · exact Or.inl (h'.trans hnone)
    · exact Or.inr ⟨ha, hs, hk, has⟩

/-- **C10 witness**: the approved poll on `sPending` returns a state whose
extra `"response"` key holds `"Confirmed and recorded."`. -/
theorem C10_witness :
    Except.map (fun r => (r.state.response_key, r.payload.response))
      (runChatTurn "status?" (some sPending) envApproved) =
      Except.ok (some "Confirmed and recorded.", "Confirmed and recorded.") := by
  obtain ⟨r, hrun, h1, h2⟩ :=
    C10_response_key_only_in_approved.1 "status?" sPending envApproved "REQ1" decApproved
      (by decide) (by decide) (by decide) (by decide) (by decide) (by decide)
      (by decide) (by decide) (by decide)
  rw [hrun]
  simp only [Except.map]
  rw [h1, h2]

theorem strAppend_assoc (a b c : String) : a ++ b ++ c = a ++ (b ++ c) := by
  obtain ⟨la⟩ := a
  obtain ⟨lb⟩ := b
  obtain ⟨lc⟩ := c
  exact congrArg String.mk (List.append_assoc la lb lc)

/-- The invalid-value re-prompt's response always starts with
`Invalid <field>`. -/
theorem invalid_response_contains (s : ConversationState) (f : Field) (e2 : String)
    (sug : List String) :
    strContains (invalidResult s f e2 sug).payload.response
      ("Invalid " ++ fieldName f) = true := by
  have hresp : (invalidResult s f e2 sug).payload.response =
      ("Invalid " ++ fieldName f) ++ (": " ++ e2 ++ " " ++ fieldPrompt f) := by
    simp [invalidResult, mkBookingResponse, strAppend_assoc]
  rw [hresp]
  exact strContains_append _ _

/-- **C6 counterexample**: the claim promises, for every message failing
validation in field-collection mode, an `Invalid <field>` re-prompt with
an unchanged state.  But for the reservation period
`"9999-12-31 10:00 to 9999-12-31 09:00"` — which fails validation with the
end-before-start error and contains no shorthand, no cancel, no keyword —
`run_chat_turn` raises instead of answering: the alternative-suggestion
helper computes `start + timedelta(days=1)` past `datetime.max`, and the
`OverflowError` escapes the engine. -/
theorem C6_counterexample :
    validate_field Field.reservation_period "9999-12-31 10:00 to 9999-12-31 09:00" =
      Except.ok (some "Reservation end time must be after start time.") ∧
    parsedNonempty
      (parse_structured_details "9999-12-31 10:00 to 9999-12-31 09:00") = false ∧
    isCancelCommand "9999-12-31 10:00 to 9999-12-31 09:00" = false ∧
    is_booking_keyword_intent "9999-12-31 10:00 to 9999-12-31 09:00" = false ∧
    runChatTurn "9999-12-31 10:00 to 9999-12-31 09:00" (some sCollectPeriod) envInfo =
      Except.error () := by
  refine ⟨by decide, by decide, by decide, by decide, by decide⟩

/-- **C6 amended**: in field-collection mode (booking active,
`pending_field` set, `status = "collecting"`), for a message that is not a
cancel command, not a booking trigger, contains no structured shorthand
and fails validation, *whenever the turn returns normally* (the
reservation-period suggestion helper can raise `OverflowError` at the
supported-date boundary, in which case the exception propagates and no
response is produced), the returned state keeps `pending_field` and
`collected` unchanged, stays in `collecting`, and the response contains
`Invalid <field>`. -/
theorem C6_invalid_input_reprompts (m : String) (s : ConversationState) (env : Env)
    (f : Field) (err : String) (r : TurnResult)
    (hne : pyIsEmpty (pyStrip m) = false)
    (hnc : isCancelCommand (pyStrip m) = false)
    (hnk : is_booking_keyword_intent (pyStrip m) = false)
    (ha : s.booking_active = true) (hst : s.status = "collecting")
    (hpf : s.pending_field = some f)
    (hparse : parsedNonempty (parse_structured_details (pyStrip m)) = false)
    (hval : validate_field f (pyStrip m) = Except.ok (some err))
    (h : runChatTurn m (some s) env = Except.ok r) :
    r.state.pending_field = some f ∧ r.state.collected = s.collected ∧
    r.state.status = "collecting" ∧
    strContains r.payload.response ("Invalid " ++ fieldName f) = true := by
  have hb1 : (("collecting" : String) == "pending") = false := by decide
  have hb2 : (("collecting" : String) == "review") = false := by decide
  unfold runChatTurn at h
  simp only [Option.getD_some] at h
  rw [hne] at h
  simp only [Bool.false_eq_true, if_false, ha, hnc, hnk, hst, hb1, hb2, hpf,
    Bool.and_false, Bool.false_and, Bool.and_true, Bool.true_and, Option.isSome_some,
    if_true] at h
  unfold collectTurn at h
  simp only [hpf, Option.getD_some, hparse, Bool.false_eq_true, if_false] at h
  rw [hval] at h
  simp only [] at h
  repeat' split at h
  all_goals
    first
    | exact Except.noConfusion h
    | (cases h; exact ⟨rfl, rfl, rfl, invalid_response_contains ..⟩)

/-- **C6 witness**: an invalid name (`"1"`) re-prompts the same field with
an `Invalid name` response and an unchanged (empty) `collected`. -/
theorem C6_witness :
    Except.map (fun r => (r.state.pending_field, r.state.collected, r.state.status,
        strContains r.payload.response ("Invalid " ++ fieldName Field.name)))
      (runChatTurn "1" (some sCollecting) envInfo) =
      Except.ok (some Field.name, Collected.empty, "collecting", true) := by
  cases hrun : runChatTurn "1" (some sCollecting) envInfo with
  | error e =>
      cases e
      exact absurd hrun (by decide)
  | ok r =>
      obtain ⟨h1, h2, h3, h4⟩ :=
        C6_invalid_input_reprompts "1" sCollecting envInfo Field.name
          "Use only letters, spaces, apostrophe, or hyphen (2-50 chars)." r
          (by decide) (by decide) (by decide) (by decide) (by decide) (by decide)
          (by decide) (by decide) hrun
      simp only [Except.map]
      rw [h1, h2, h3, h4]
      rfl

/-- **C7** (code bug): `validate_field("reservation_period", v)` is
specified to return an error string and never raise, but for a value that
matches `PERIOD_RE` while naming a calendar-invalid date —
`"2026-02-30 10:00 to 2026-02-30 11:00"` — `datetime.strptime` raises
`ValueError` (`day is out of range for month`) and the exception escapes
`validate_field` (and, through line 565 of `interactive_flow.py`, the
engine). -/
theorem C7_validate_field_raises :
    validate_field Field.reservation_period "2026-02-30 10:00 to 2026-02-30 11:00" =
      Except.error () ∧
    runChatTurn "2026-02-30 10:00 to 2026-02-30 11:00" (some sCollectPeriod) envInfo =
      Except.error () := by
  exact ⟨by decide, by decide⟩

/-- **C8 counterexample**: the claim promises a 0–2 entry list for *every*
parseable period and window, but for the parseable period
`"9999-12-31 06:00 to 9999-12-31 07:00"` the next-day candidate computes
`start + timedelta(days=1)` past `datetime.max` and
`suggest_alternative_periods` raises `OverflowError` instead of returning
a list. -/
theorem C8_counterexample :
    parsePeriodOrNone "9999-12-31 06:00 to 9999-12-31 07:00" =
      Except.ok (some (⟨9999, 12, 31, 6, 0⟩, ⟨9999, 12, 31, 7, 0⟩)) ∧
    parseWorkingHoursWindow "06:00-23:00" = Except.ok (some (6, 0, 23, 0)) ∧
    suggest_alternative_periods "9999-12-31 06:00 to 9999-12-31 07:00" "06:00-23:00" =
      Except.error () := by
  exact ⟨by decide, by decide, by decide⟩

/-- **C8 amended**: whenever `suggest_alternative_periods` returns
normally (it raises `OverflowError` when a candidate's datetime
arithmetic would pass year 9999), the result is a deduplicated list of at
most two entries, each the rendering of one of the two clip-candidates —
(a) the same calendar day clipped to the opening window starting no
earlier than the original start, and (b) the next day's equivalent window
clipped similarly, with non-positive candidates discarded, as computed by
`altCandidatePairs` — and unparseable period or window input yields the
empty list. -/
theorem C8_suggest_alternatives (period wh : String) (l : List String)
    (h : suggest_alternative_periods period wh = Except.ok l) :
    l.length ≤ 2 ∧ l.Nodup ∧
    (parsePeriodOrNone period = Except.ok none → l = []) ∧
    (parseWorkingHoursWindow wh = Except.ok none → l = []) ∧
    (∀ x ∈ l, ∃ sdt edt oh om ch cm pairs,
      parsePeriodOrNone period = Except.ok (some (sdt, edt)) ∧
      parseWorkingHoursWindow wh = Except.ok (some (oh, om, ch, cm)) ∧
      altCandidatePairs sdt edt oh om ch cm = Except.ok pairs ∧
      ∃ p ∈ pairs, x = renderPeriod p.1 p.2) := by
  unfold suggest_alternative_periods parseReservationPeriod at h
  cases hp : parsePeriodOrNone period with
  | error e => rw [hp] at h; exact Except.noConfusion h
  | ok pp =>
      rw [hp] at h
      cases hw : parseWorkingHoursWindow wh with
      | error e => rw [hw] at h; exact Except.noConfusion h
      | ok hwv =>
          rw [hw] at h
          rcases pp with _ | ⟨sdt, edt⟩
          · simp only [] at h
            cases h
            refine ⟨by simp, List.nodup_nil, fun _ => rfl, fun _ => rfl, ?_⟩
            intro x hx
            exact absurd hx (List.not_mem_nil x)
          · rcases hwv with _ | ⟨oh, om, ch, cm⟩
            · simp only [] at h
              cases h
              refine ⟨by simp, List.nodup_nil, fun _ => rfl, fun _ => rfl, ?_⟩
              intro x hx
              exact absurd hx (List.not_mem_nil x)
            · simp only [] at h
              cases hap : altCandidatePairs sdt edt oh om ch cm with
              | error e => rw [hap] at h; exact Except.noConfusion h
              | ok pairs =>
                  rw [hap] at h
                  simp only [Except.ok.injEq] at h
                  subst h
                  refine ⟨?_, ?_, ?_, ?_, ?_⟩
                  · rw [List.length_take]
                    exact min_le_left _ _
                  · exact List.Nodup.sublist (List.take_sublist _ _) (pyDedup_nodup _)
                  · intro hx
                    simp at hx
                  · intro hx
                    simp at hx
                  · intro x hx
                    have hx1 : x ∈ pyDedup (pairs.map (fun p => renderPeriod p.1 p.2)) :=
                      List.take_subset _ _ hx
                    have hx2 := pyDedup_subset _ x hx1
                    obtain ⟨p, hpmem, hpeq⟩ := List.mem_map.mp hx2
                    exact ⟨sdt, edt, oh, om, ch, cm, pairs, rfl, rfl, hap, p, hpmem,
                      hpeq.symm⟩

/-- **C8 witness**: a 09:00–18:00 request inside 06:00–23:00 working hours
yields the same-day candidate and the next-day 06:00 window, two distinct
entries. -/
theorem C8_witness :
    (["2026-02-20 09:00 to 2026-02-20 18:00",
      "2026-02-21 06:00 to 2026-02-21 15:00"] : List String).length ≤ 2 ∧
    (["2026-02-20 09:00 to 2026-02-20 18:00",
      "2026-02-21 06:00 to 2026-02-21 15:00"] : List String).Nodup := by
  have h := C8_suggest_alternatives "2026-02-20 09:00 to 2026-02-20 18:00"
    "Mon-Sun 06:00-23:00"
    ["2026-02-20 09:00 to 2026-02-20 18:00", "2026-02-21 06:00 to 2026-02-21 15:00"]
    (by decide)
  exact ⟨h.1, h.2.1⟩

end ChatbotParking
